import Mathlib

/-!
Shallow embedding of the DevilutionX dungeon tile rasterizer
(`Source/engine/render/dun_render.cpp` / `dun_render.hpp`) and proofs about it.

The destination framebuffer is modelled as a total function from (integer)
byte addresses to palette bytes. Pointer arithmetic on `dst` becomes integer
address arithmetic. Light tables are functions `Nat → Nat` and the blend
matrix `paletteTransparencyLookup` is a function `Nat → Nat → Nat`.

Raw (non-RLE) source pixel data is modelled as a function `Nat → Nat` with a
running cursor, matching a read-only byte buffer of unconstrained extent.
The RLE stream of a `TransparentSquare` tile is modelled as a `List Nat`
consumed from the front; reading past the end of the list yields `none`
(out-of-bounds read on the source asset).

`uint_fast8_t` accumulators are modelled with 8-bit wraparound (glibc maps
`uint_fast8_t` to `unsigned char`), and the `int8_t` prefix parameters with
wrap-to-`[-128, 127]` conversion (`toInt8` below).
-/

namespace DunRender

/-- Destination framebuffer: byte at every (pointer) address. -/
abbrev Buf := Int → Nat

/-- Write one byte into the framebuffer. -/
def bufWrite (buf : Buf) (a : Int) (v : Nat) : Buf :=
  fun x => if x = a then v else buf x

/-- `static_cast<int8_t>` of a byte read from the source stream. -/
def int8 (b : Nat) : Int :=
  if b % 256 < 128 then (b % 256 : Int) else (b % 256 : Int) - 256

/-- Conversion of an integer into `int8_t` (two's-complement wraparound). -/
def toInt8 (z : Int) : Int :=
  (z + 128) % 256 - 128

/-- `TILE_WIDTH / 2`: width of a tile rendering primitive. -/
def Width : Int := 32

/-- `TILE_HEIGHT`: height of a tile rendering primitive (except triangles). -/
def Height : Int := 32

/-- Height of the lower triangle of a triangular or a trapezoid tile. -/
def LowerHeight : Int := 16

/-- Height of the upper triangle of a triangular tile. -/
def TriangleUpperHeight : Int := 15

/-- Height of the upper rectangle of a trapezoid tile. -/
def TrapezoidUpperHeight : Int := 16

def TriangleHeight : Int := 31

/-- For triangles: horizontal pixels per vertical pixel. -/
def XStep : Int := 2

/-- `LightType` from `dun_render.cpp` (the `PartiallyLit` case is named
`dimLit` here). -/
inductive LightType : Type
  | fullyDark
  | dimLit
  | fullyLit
deriving DecidableEq, Repr

/-- The value an opaque write stores for source byte `b`: `0` when fully
dark (`memset`), `b` when fully lit (`memcpy`), `tbl[b]` otherwise. -/
def opaquePix (lt : LightType) (tbl : Nat → Nat) (b : Nat) : Nat :=
  match lt with
  | .fullyDark => 0
  | .fullyLit => b
  | .dimLit => tbl b

/-- The value a blended write stores for destination byte `d` and source
byte `b`: `trans[0][d]` when fully dark, `trans[d][b]` when fully lit,
`trans[d][tbl[b]]` otherwise. -/
def blendPix (lt : LightType) (tbl : Nat → Nat) (trans : Nat → Nat → Nat)
    (d b : Nat) : Nat :=
  match lt with
  | .fullyDark => trans 0 d
  | .fullyLit => trans d b
  | .dimLit => trans d (tbl b)

/-- `RenderLineOpaque`: writes `n` pixels starting at address `a`, reading
source bytes `src s`, `src (s+1)`, …; `memset 0` when fully dark, `memcpy`
when fully lit, light-table remap otherwise. -/
def renderLineOpaque (lt : LightType) (tbl : Nat → Nat) (src : Nat → Nat) :
    Nat → Nat → Buf → Int → Buf
  | _, 0, buf, _ => buf
  | s, n + 1, buf, a =>
    renderLineOpaque lt tbl src (s + 1) n
      (bufWrite buf a (opaquePix lt tbl (src s))) (a + 1)

/-- `RenderLineTransparent`: blends `n` pixels through
`paletteTransparencyLookup` (`trans`). -/
def renderLineTransparent (lt : LightType) (tbl : Nat → Nat)
    (trans : Nat → Nat → Nat) (src : Nat → Nat) :
    Nat → Nat → Buf → Int → Buf
  | _, 0, buf, _ => buf
  | s, n + 1, buf, a =>
    renderLineTransparent lt tbl trans src (s + 1) n
      (bufWrite buf a (blendPix lt tbl trans (buf a) (src s))) (a + 1)

/-- `RenderLineTransparentOrOpaque`. -/
def renderLineTransparentOrOpaque (lt : LightType) (transparent : Bool)
    (tbl : Nat → Nat) (trans : Nat → Nat → Nat) (src : Nat → Nat)
    (s n : Nat) (buf : Buf) (a : Int) : Buf :=
  if transparent then renderLineTransparent lt tbl trans src s n buf a
  else renderLineOpaque lt tbl src s n buf a

/-- `IsFoliage<OpaquePrefix, PrefixIncrement>`. -/
def isFoliage (opq : Bool) (pinc : Int) : Bool :=
  pinc ≠ 0 && (opq == decide (pinc > 0))

/-- `SkipTransparentPixels<OpaquePrefix, PrefixIncrement>`. -/
def skipTransparentPixels (opq : Bool) (pinc : Int) : Bool :=
  isFoliage opq pinc

/-- `LowerHalfTransparent<OpaquePrefix, PrefixIncrement>`. -/
def lowerHalfTransparent (opq : Bool) (pinc : Int) : Bool :=
  opq == decide (pinc ≥ 0)

/-- `InitPrefix<PrefixIncrement>()`. -/
def initPfx (pinc : Int) : Int :=
  if pinc ≥ 0 then -32 else 64

/-- `InitPrefix<PrefixIncrement>(y)`: initial prefix at the `y`-th line,
counting from the bottom (an `int8_t` value). -/
def initPfxAt (pinc : Int) (y : Int) : Int :=
  toInt8 (initPfx pinc + pinc * y)

/-- `RenderLineTransparentAndOpaque`: an opaque and a blended segment of one
line, in mask-dependent order; for foliage masks the blended segment is
skipped entirely. -/
def renderLineTransparentAndOpaque (lt : LightType) (opq : Bool) (pinc : Int)
    (tbl : Nat → Nat) (trans : Nat → Nat → Nat) (src : Nat → Nat)
    (s : Nat) (pw n : Nat) (buf : Buf) (a : Int) : Buf :=
  if opq then
    let buf1 := renderLineOpaque lt tbl src s pw buf a
    if skipTransparentPixels opq pinc then buf1
    else renderLineTransparent lt tbl trans src (s + pw) (n - pw) buf1 (a + pw)
  else
    let buf1 :=
      if skipTransparentPixels opq pinc then buf
      else renderLineTransparent lt tbl trans src s pw buf a
    renderLineOpaque lt tbl src (s + pw) (n - pw) buf1 (a + pw)

/-- `clamp<int8_t>(v, lo, hi)` (for `lo ≤ hi`). -/
def clampI (v lo hi : Int) : Int :=
  max lo (min v hi)

/-- `RenderLine`: one contiguous segment of a scanline; the prefix is only
used when `PrefixIncrement ≠ 0`. -/
def renderLine (lt : LightType) (opq : Bool) (pinc : Int)
    (tbl : Nat → Nat) (trans : Nat → Nat → Nat) (src : Nat → Nat)
    (s : Nat) (n : Nat) (buf : Buf) (a : Int) (pfx : Int) : Buf :=
  if pinc = 0 then
    renderLineTransparentOrOpaque lt opq tbl trans src s n buf a
  else
    renderLineTransparentAndOpaque lt opq pinc tbl trans src s
      (clampI pfx 0 n).toNat n buf a

/-- `Clip` (all fields `int_fast16_t`). -/
structure Clip where
  top : Int
  bottom : Int
  left : Int
  right : Int
  width : Int
  height : Int
deriving DecidableEq, Repr

/-- `CalculateClip(x, y, w, h, out)`; the surface is abstracted to its
dimensions `outW × outH`. -/
def CalculateClip (x y w h outW outH : Int) : Clip :=
  let top := if y + 1 < h then h - (y + 1) else 0
  let bottom := if y + 1 > outH then (y + 1) - outH else 0
  let left := if x < 0 then -x else 0
  let right := if x + w > outW then x + w - outW else 0
  { top := top, bottom := bottom, left := left, right := right
    width := w - left - right, height := h - top - bottom }

/-- `CalculateDunTileClip(x, y, w, h, out)` from `dun_render.hpp` (textually
the same computation as `CalculateClip`). -/
def CalculateDunTileClip (x y w h outW outH : Int) : Clip :=
  let top := if y + 1 < h then h - (y + 1) else 0
  let bottom := if y + 1 > outH then (y + 1) - outH else 0
  let left := if x < 0 then -x else 0
  let right := if x + w > outW then x + w - outW else 0
  { top := top, bottom := bottom, left := left, right := right
    width := w - left - right, height := h - top - bottom }

/-- `DiamondClipY`. -/
structure DiamondClipY where
  lowerBottom : Int
  lowerTop : Int
  upperBottom : Int
  upperTop : Int
deriving DecidableEq, Repr

/-- `CalculateDiamondClipY<UpperHeight>(clip)`. -/
def CalculateDiamondClipY (upperHeight : Int) (clip : Clip) : DiamondClipY :=
  if clip.bottom > LowerHeight then
    { lowerBottom := LowerHeight, upperBottom := clip.bottom - LowerHeight
      lowerTop := 0, upperTop := 0 }
  else if clip.top > upperHeight then
    { upperTop := upperHeight, lowerTop := clip.top - upperHeight
      upperBottom := 0, lowerBottom := 0 }
  else
    { upperTop := clip.top, lowerBottom := clip.bottom
      lowerTop := 0, upperBottom := 0 }

/-- `CalculateTriangleSourceSkipLowerBottom(numLines)`. -/
def CalculateTriangleSourceSkipLowerBottom (numLines : Nat) : Nat :=
  2 * numLines * (numLines + 1) / 2 + 2 * ((numLines + 1) / 2)

/-- `CalculateTriangleSourceSkipUpperBottom(numLines)`. -/
def CalculateTriangleSourceSkipUpperBottom (numLines : Nat) : Nat :=
  2 * 15 * numLines - numLines * (numLines - 1) + 2 * ((numLines + 1) / 2)

/-- Source bytes consumed by one iteration `i` of a triangle lower-half
rendering loop: the `2 * (i % 2)` parity skip plus the row width
`XStep * i`. -/
def lowerLineSrcBytes (i : Nat) : Nat :=
  2 * (i % 2) + 2 * i

/-- Source bytes consumed by one iteration `i` of a triangle upper-half
rendering loop: the `2 * (i % 2)` parity skip plus the row width
`Width - XStep * i`. -/
def upperLineSrcBytes (i : Nat) : Nat :=
  2 * (i % 2) + (32 - 2 * i)

/-- Sum of `lowerLineSrcBytes` over `i = 1..n`. -/
def lowerLineSrcBytesSum : Nat → Nat
  | 0 => 0
  | n + 1 => lowerLineSrcBytesSum n + lowerLineSrcBytes (n + 1)

/-- Sum of `upperLineSrcBytes` over `i = 1..n`. -/
def upperLineSrcBytesSum : Nat → Nat
  | 0 => 0
  | n + 1 => upperLineSrcBytesSum n + upperLineSrcBytes (n + 1)

/-! ### Square tiles -/

/-- Row loop shared (with different parameters) by `RenderSquareFull` and
`RenderSquareClipped`: each iteration draws `w` pixels, advances the source
cursor by `Width` and moves the destination up one row. -/
def squareRows (lt : LightType) (transp : Bool) (tbl : Nat → Nat)
    (trans : Nat → Nat → Nat) (pitch : Int) (src : Nat → Nat) (w : Nat) :
    Nat → Nat → Buf → Int → Buf
  | 0, _, buf, _ => buf
  | r + 1, s, buf, a =>
    squareRows lt transp tbl trans pitch src w r (s + 32)
      (renderLineTransparentOrOpaque lt transp tbl trans src s w buf a)
      (a - pitch)

/-- `RenderSquareFull`. -/
def renderSquareFull (lt : LightType) (transp : Bool) (tbl : Nat → Nat)
    (trans : Nat → Nat → Nat) (pitch : Int) (src : Nat → Nat)
    (s : Nat) (buf : Buf) (a : Int) : Buf :=
  squareRows lt transp tbl trans pitch src 32 32 s buf a

/-- `RenderSquareClipped`: `src += clip.bottom * Height + clip.left`, then
`clip.height` rows of `clip.width` pixels. -/
def renderSquareClipped (lt : LightType) (transp : Bool) (tbl : Nat → Nat)
    (trans : Nat → Nat → Nat) (pitch : Int) (src : Nat → Nat)
    (s : Nat) (buf : Buf) (a : Int) (clip : Clip) : Buf :=
  squareRows lt transp tbl trans pitch src clip.width.toNat clip.height.toNat
    (s + (clip.bottom * 32 + clip.left).toNat) buf a

/-! ### Triangle tiles

The lower/upper halves are loops `for (i = lo; i <= hi; ++i)`; they are
modelled by recursion on the iteration count with the loop variable `i`
carried explicitly. Each returns the final `(buf, src cursor, dst address)`
since the C++ passes `src`/`dst` by reference. -/

/-- Loop body of `RenderLeftTriangleLower*`: `src += 2 * (i % 2)`, draw
`XStep * i` pixels, `dst -= dstPitch + XStep`. -/
def leftTriLowerRows (lt : LightType) (transp : Bool) (tbl : Nat → Nat)
    (trans : Nat → Nat → Nat) (pitch : Int) (src : Nat → Nat) :
    Nat → Nat → Nat → Buf → Int → Buf × Nat × Int
  | 0, _, s, buf, a => (buf, s, a)
  | cnt + 1, i, s, buf, a =>
    let s := s + 2 * (i % 2)
    let w := 2 * i
    let buf := renderLineTransparentOrOpaque lt transp tbl trans src s w buf a
    leftTriLowerRows lt transp tbl trans pitch src cnt (i + 1) (s + w) buf
      (a - (pitch + 2))

/-- `RenderLeftTriangleLower`: `dst += XStep * (LowerHeight - 1)` then the
lower loop for `i = 1..16`. -/
def renderLeftTriangleLower (lt : LightType) (transp : Bool) (tbl : Nat → Nat)
    (trans : Nat → Nat → Nat) (pitch : Int) (src : Nat → Nat)
    (s : Nat) (buf : Buf) (a : Int) : Buf × Nat × Int :=
  leftTriLowerRows lt transp tbl trans pitch src 16 1 s buf (a + 2 * 15)

/-- `RenderLeftTriangleLowerClipVertical`. -/
def renderLeftTriangleLowerClipVertical (lt : LightType) (transp : Bool)
    (tbl : Nat → Nat) (trans : Nat → Nat → Nat) (pitch : Int) (src : Nat → Nat)
    (clipY : DiamondClipY) (s : Nat) (buf : Buf) (a : Int) : Buf × Nat × Int :=
  leftTriLowerRows lt transp tbl trans pitch src
    (16 - clipY.lowerTop - clipY.lowerBottom).toNat (1 + clipY.lowerBottom).toNat
    (s + CalculateTriangleSourceSkipLowerBottom clipY.lowerBottom.toNat) buf
    (a + 2 * (16 - clipY.lowerBottom - 1))

/-- Loop body of the upper half of `RenderLeftTriangle*`: `src += 2 * (i % 2)`,
draw `Width - XStep * i` pixels, `dst -= dstPitch - XStep`. -/
def leftTriUpperRows (lt : LightType) (transp : Bool) (tbl : Nat → Nat)
    (trans : Nat → Nat → Nat) (pitch : Int) (src : Nat → Nat) :
    Nat → Nat → Nat → Buf → Int → Buf × Nat × Int
  | 0, _, s, buf, a => (buf, s, a)
  | cnt + 1, i, s, buf, a =>
    let s := s + 2 * (i % 2)
    let w := 32 - 2 * i
    let buf := renderLineTransparentOrOpaque lt transp tbl trans src s w buf a
    leftTriUpperRows lt transp tbl trans pitch src cnt (i + 1) (s + w) buf
      (a - (pitch - 2))

/-- `RenderLeftTriangleFull`. -/
def renderLeftTriangleFull (lt : LightType) (transp : Bool) (tbl : Nat → Nat)
    (trans : Nat → Nat → Nat) (pitch : Int) (src : Nat → Nat)
    (s : Nat) (buf : Buf) (a : Int) : Buf :=
  let r := renderLeftTriangleLower lt transp tbl trans pitch src s buf a
  (leftTriUpperRows lt transp tbl trans pitch src 15 1 r.2.1 r.1 (r.2.2 + 2 * 2)).1

/-- `RenderLeftTriangleClipVertical`. -/
def renderLeftTriangleClipVertical (lt : LightType) (transp : Bool)
    (tbl : Nat → Nat) (trans : Nat → Nat → Nat) (pitch : Int) (src : Nat → Nat)
    (s : Nat) (buf : Buf) (a : Int) (clip : Clip) : Buf :=
  let clipY := CalculateDiamondClipY TriangleUpperHeight clip
  let r := renderLeftTriangleLowerClipVertical lt transp tbl trans pitch src
    clipY s buf a
  (leftTriUpperRows lt transp tbl trans pitch src
    (15 - clipY.upperTop - clipY.upperBottom).toNat (1 + clipY.upperBottom).toNat
    (r.2.1 + CalculateTriangleSourceSkipUpperBottom clipY.upperBottom.toNat) r.1
    (r.2.2 + 2 * 2 + 2 * clipY.upperBottom)).1

/-- Loop body of `RenderRightTriangleLower*`: draw `XStep * i` pixels, then
`src += width + 2 * (i % 2)`, `dst -= dstPitch`. -/
def rightTriLowerRows (lt : LightType) (transp : Bool) (tbl : Nat → Nat)
    (trans : Nat → Nat → Nat) (pitch : Int) (src : Nat → Nat) :
    Nat → Nat → Nat → Buf → Int → Buf × Nat × Int
  | 0, _, s, buf, a => (buf, s, a)
  | cnt + 1, i, s, buf, a =>
    let w := 2 * i
    let buf := renderLineTransparentOrOpaque lt transp tbl trans src s w buf a
    rightTriLowerRows lt transp tbl trans pitch src cnt (i + 1)
      (s + (w + 2 * (i % 2))) buf (a - pitch)

/-- `RenderRightTriangleLower`. -/
def renderRightTriangleLower (lt : LightType) (transp : Bool) (tbl : Nat → Nat)
    (trans : Nat → Nat → Nat) (pitch : Int) (src : Nat → Nat)
    (s : Nat) (buf : Buf) (a : Int) : Buf × Nat × Int :=
  rightTriLowerRows lt transp tbl trans pitch src 16 1 s buf a

/-- `RenderRightTriangleLowerClipVertical`. -/
def renderRightTriangleLowerClipVertical (lt : LightType) (transp : Bool)
    (tbl : Nat → Nat) (trans : Nat → Nat → Nat) (pitch : Int) (src : Nat → Nat)
    (clipY : DiamondClipY) (s : Nat) (buf : Buf) (a : Int) : Buf × Nat × Int :=
  rightTriLowerRows lt transp tbl trans pitch src
    (16 - clipY.lowerTop - clipY.lowerBottom).toNat (1 + clipY.lowerBottom).toNat
    (s + CalculateTriangleSourceSkipLowerBottom clipY.lowerBottom.toNat) buf a

/-- Loop body of the upper half of `RenderRightTriangle*`: draw
`Width - XStep * i` pixels, then `src += width + 2 * (i % 2)`,
`dst -= dstPitch`. -/
def rightTriUpperRows (lt : LightType) (transp : Bool) (tbl : Nat → Nat)
    (trans : Nat → Nat → Nat) (pitch : Int) (src : Nat → Nat) :
    Nat → Nat → Nat → Buf → Int → Buf × Nat × Int
  | 0, _, s, buf, a => (buf, s, a)
  | cnt + 1, i, s, buf, a =>
    let w := 32 - 2 * i
    let buf := renderLineTransparentOrOpaque lt transp tbl trans src s w buf a
    rightTriUpperRows lt transp tbl trans pitch src cnt (i + 1)
      (s + (w + 2 * (i % 2))) buf (a - pitch)

/-- `RenderRightTriangleFull`. -/
def renderRightTriangleFull (lt : LightType) (transp : Bool) (tbl : Nat → Nat)
    (trans : Nat → Nat → Nat) (pitch : Int) (src : Nat → Nat)
    (s : Nat) (buf : Buf) (a : Int) : Buf :=
  let r := renderRightTriangleLower lt transp tbl trans pitch src s buf a
  (rightTriUpperRows lt transp tbl trans pitch src 15 1 r.2.1 r.1 r.2.2).1

/-- `RenderRightTriangleClipVertical`. -/
def renderRightTriangleClipVertical (lt : LightType) (transp : Bool)
    (tbl : Nat → Nat) (trans : Nat → Nat → Nat) (pitch : Int) (src : Nat → Nat)
    (s : Nat) (buf : Buf) (a : Int) (clip : Clip) : Buf :=
  let clipY := CalculateDiamondClipY TriangleUpperHeight clip
  let r := renderRightTriangleLowerClipVertical lt transp tbl trans pitch src
    clipY s buf a
  (rightTriUpperRows lt transp tbl trans pitch src
    (15 - clipY.upperTop - clipY.upperBottom).toNat (1 + clipY.upperBottom).toNat
    (r.2.1 + CalculateTriangleSourceSkipUpperBottom clipY.upperBottom.toNat) r.1
    r.2.2).1

/-! ### Trapezoid tiles -/

/-- Loop body of `RenderTrapezoidUpperHalf` (the unclipped upper half): one
full-width line split at `prefixWidth`, then `prefixWidth += PrefixIncrement`
(when nonzero) and `src += Width`. -/
def trapUpperRowsFull (lt : LightType) (opq : Bool) (pinc : Int)
    (tbl : Nat → Nat) (trans : Nat → Nat → Nat) (pitch : Int) (src : Nat → Nat) :
    Nat → Int → Nat → Buf → Int → Buf
  | 0, _, _, buf, _ => buf
  | cnt + 1, pw, s, buf, a =>
    let buf :=
      renderLineTransparentAndOpaque lt opq pinc tbl trans src s pw.toNat 32 buf a
    trapUpperRowsFull lt opq pinc tbl trans pitch src cnt
      (if pinc ≠ 0 then pw + pinc else pw) (s + 32) buf (a - pitch)

/-- `RenderTrapezoidUpperHalf`. -/
def renderTrapezoidUpperHalf (lt : LightType) (opq : Bool) (pinc : Int)
    (tbl : Nat → Nat) (trans : Nat → Nat → Nat) (pitch : Int) (src : Nat → Nat)
    (s : Nat) (buf : Buf) (a : Int) : Buf :=
  trapUpperRowsFull lt opq pinc tbl trans pitch src 16
    (if pinc < 0 then 32 else 0) s buf a

/-- Loop body of `RenderTrapezoidUpperHalfClipVertical`: one full-width
`RenderLine` per row with an `int8_t` prefix advanced by `PrefixIncrement`. -/
def trapUpperRowsClipVertical (lt : LightType) (opq : Bool) (pinc : Int)
    (tbl : Nat → Nat) (trans : Nat → Nat → Nat) (pitch : Int) (src : Nat → Nat) :
    Nat → Int → Nat → Buf → Int → Buf
  | 0, _, _, buf, _ => buf
  | cnt + 1, pfx, s, buf, a =>
    let buf := renderLine lt opq pinc tbl trans src s 32 buf a pfx
    trapUpperRowsClipVertical lt opq pinc tbl trans pitch src cnt
      (toInt8 (pfx + pinc)) (s + 32) buf (a - pitch)

/-- `RenderTrapezoidUpperHalfClipVertical`: rows `1 + clipY.upperBottom` to
`TrapezoidUpperHeight - clipY.upperTop`, starting prefix
`InitPrefix(clip.bottom)`. -/
def renderTrapezoidUpperHalfClipVertical (lt : LightType) (opq : Bool)
    (pinc : Int) (tbl : Nat → Nat) (trans : Nat → Nat → Nat) (pitch : Int)
    (src : Nat → Nat) (clip : Clip) (clipY : DiamondClipY)
    (s : Nat) (buf : Buf) (a : Int) : Buf :=
  trapUpperRowsClipVertical lt opq pinc tbl trans pitch src
    (16 - clipY.upperTop - clipY.upperBottom).toNat
    (initPfxAt pinc clip.bottom) s buf a

/-- `RenderLeftTrapezoidFull`. -/
def renderLeftTrapezoidFull (lt : LightType) (opq : Bool) (pinc : Int)
    (tbl : Nat → Nat) (trans : Nat → Nat → Nat) (pitch : Int) (src : Nat → Nat)
    (s : Nat) (buf : Buf) (a : Int) : Buf :=
  let r := renderLeftTriangleLower lt (lowerHalfTransparent opq pinc) tbl trans
    pitch src s buf a
  renderTrapezoidUpperHalf lt opq pinc tbl trans pitch src r.2.1 r.1 (r.2.2 + 2)

/-- `RenderLeftTrapezoidClipVertical`. -/
def renderLeftTrapezoidClipVertical (lt : LightType) (opq : Bool) (pinc : Int)
    (tbl : Nat → Nat) (trans : Nat → Nat → Nat) (pitch : Int) (src : Nat → Nat)
    (s : Nat) (buf : Buf) (a : Int) (clip : Clip) : Buf :=
  let clipY := CalculateDiamondClipY TrapezoidUpperHeight clip
  let r := renderLeftTriangleLowerClipVertical lt
    (lowerHalfTransparent opq pinc) tbl trans pitch src clipY s buf a
  renderTrapezoidUpperHalfClipVertical lt opq pinc tbl trans pitch src clip
    clipY (r.2.1 + (clipY.upperBottom * 32).toNat) r.1 (r.2.2 + 2)

/-- `RenderRightTrapezoidFull`. -/
def renderRightTrapezoidFull (lt : LightType) (opq : Bool) (pinc : Int)
    (tbl : Nat → Nat) (trans : Nat → Nat → Nat) (pitch : Int) (src : Nat → Nat)
    (s : Nat) (buf : Buf) (a : Int) : Buf :=
  let r := renderRightTriangleLower lt (lowerHalfTransparent opq pinc) tbl trans
    pitch src s buf a
  renderTrapezoidUpperHalf lt opq pinc tbl trans pitch src r.2.1 r.1 r.2.2

/-- `RenderRightTrapezoidClipVertical`. -/
def renderRightTrapezoidClipVertical (lt : LightType) (opq : Bool) (pinc : Int)
    (tbl : Nat → Nat) (trans : Nat → Nat → Nat) (pitch : Int) (src : Nat → Nat)
    (s : Nat) (buf : Buf) (a : Int) (clip : Clip) : Buf :=
  let clipY := CalculateDiamondClipY TrapezoidUpperHeight clip
  let r := renderRightTriangleLowerClipVertical lt
    (lowerHalfTransparent opq pinc) tbl trans pitch src clipY s buf a
  renderTrapezoidUpperHalfClipVertical lt opq pinc tbl trans pitch src clip
    clipY (r.2.1 + (clipY.upperBottom * 32).toNat) r.1 r.2.2

/-! ### TransparentSquare tiles (RLE-encoded)

The RLE stream is a `List Nat` of bytes consumed from the front. A read past
the end of the stream yields `none`. -/

/-- `skipRestOfTheLine(remainingWidth)` from `RenderTransparentSquareClipped`:
consumes runs while `remainingWidth > 0`; its trailing
`assert(remainingWidth == 0)` is modelled by returning `none` when the runs
do not land exactly on `0`. `fuel` bounds the number of loop iterations
(each iteration reads one byte, so `src.length` is always enough; the
wrapper `skipLine` below supplies it). -/
def skipLineF : Nat → List Nat → Int → Option (List Nat)
  | fuel, src, rem =>
    if rem > 0 then
      match fuel, src with
      | _, [] => none
      | 0, _ => none
      | fuel + 1, b :: rest =>
        let v := int8 b
        if 0 < v then skipLineF fuel (rest.drop v.toNat) (rem - v)
        else skipLineF fuel rest (rem + v)
    else if rem = 0 then some src else none

/-- `skipRestOfTheLine(remainingWidth)`. -/
def skipLine (src : List Nat) (rem : Int) : Option (List Nat) :=
  skipLineF src.length src rem

/-- The inner loop of `RenderTransparentSquareFull` for one scanline:
`drawWidth` is a `uint_fast8_t` (8-bit wraparound); literal runs of `v`
pixels are drawn by `RenderLine` with prefix `prefix - (Width - drawWidth)`.
Returns the remaining stream, the buffer, and the final `dst` address. -/
def tsqLineFullF (lt : LightType) (opq : Bool) (pinc : Int) (tbl : Nat → Nat)
    (trans : Nat → Nat → Nat) (pfx : Int) :
    Nat → List Nat → Nat → Buf → Int → Option (List Nat × Buf × Int)
  | fuel, src, dw, buf, a =>
    if dw = 0 then some (src, buf, a)
    else
      match fuel, src with
      | _, [] => none
      | 0, _ => none
      | fuel + 1, b :: rest =>
        let v := int8 b
        if 0 < v then
          if rest.length < v.toNat then none
          else
            let buf := renderLine lt opq pinc tbl trans (fun j => rest.getD j 0)
              0 v.toNat buf a (toInt8 (pfx - (32 - (dw : Int))))
            tsqLineFullF lt opq pinc tbl trans pfx fuel (rest.drop v.toNat)
              ((dw + 256 - v.toNat) % 256) buf (a + v.toNat)
        else
          tsqLineFullF lt opq pinc tbl trans pfx fuel rest
            ((dw + 256 - (-v).toNat) % 256) buf (a + (-v).toNat)

/-- One scanline of `RenderTransparentSquareFull`. -/
def tsqLineFull (lt : LightType) (opq : Bool) (pinc : Int) (tbl : Nat → Nat)
    (trans : Nat → Nat → Nat) (pfx : Int) (src : List Nat) (dw : Nat)
    (buf : Buf) (a : Int) : Option (List Nat × Buf × Int) :=
  tsqLineFullF lt opq pinc tbl trans pfx src.length src dw buf a

/-- Outer loop of `RenderTransparentSquareFull`: `Height` rows; after each
row `dst -= dstPitch + Width` (applied to the advanced `dst`) and
`prefix += PrefixIncrement` (`int8_t`). -/
def tsqRowsFull (lt : LightType) (opq : Bool) (pinc : Int) (tbl : Nat → Nat)
    (trans : Nat → Nat → Nat) (pitch : Int) :
    Nat → Int → List Nat → Buf → Int → Option Buf
  | 0, _, _, buf, _ => some buf
  | r + 1, pfx, src, buf, a =>
    match tsqLineFull lt opq pinc tbl trans pfx src 32 buf a with
    | none => none
    | some (src, buf, a) =>
      tsqRowsFull lt opq pinc tbl trans pitch r (toInt8 (pfx + pinc)) src buf
        (a - (pitch + 32))

/-- `RenderTransparentSquareFull`. -/
def renderTransparentSquareFull (lt : LightType) (opq : Bool) (pinc : Int)
    (tbl : Nat → Nat) (trans : Nat → Nat → Nat) (pitch : Int)
    (src : List Nat) (buf : Buf) (a : Int) : Option Buf :=
  tsqRowsFull lt opq pinc tbl trans pitch 32 (initPfx pinc) src buf a

/-- The "skip initial `src` if clipping on the left" loop of
`RenderTransparentSquareClipped`, including the overshoot cases. Returns the
remaining stream, the remaining `drawWidth`, the buffer and the `dst`
address. -/
def tsqLeftClipF (lt : LightType) (opq : Bool) (pinc : Int) (tbl : Nat → Nat)
    (trans : Nat → Nat → Nat) (pfx : Int) :
    Nat → List Nat → Int → Int → Buf → Int →
      Option (List Nat × Int × Buf × Int)
  | fuel, src, remLeft, dw, buf, a =>
    if remLeft > 0 then
      match fuel, src with
      | _, [] => none
      | 0, _ => none
      | fuel + 1, b :: rest =>
        let v := int8 b
        if 0 < v then
          if v > remLeft then
            if rest.length < v.toNat then none
            else
              let overshoot := v - remLeft
              let buf := renderLine lt opq pinc tbl trans
                (fun j => rest.getD (remLeft.toNat + j) 0) 0 overshoot.toNat buf
                a (toInt8 (pfx - (32 - remLeft)))
              tsqLeftClipF lt opq pinc tbl trans pfx fuel (rest.drop v.toNat)
                (remLeft - v) (dw - overshoot) buf (a + overshoot)
          else
            tsqLeftClipF lt opq pinc tbl trans pfx fuel (rest.drop v.toNat)
              (remLeft - v) dw buf a
        else
          let v2 := -v
          if v2 > remLeft then
            let overshoot := v2 - remLeft
            tsqLeftClipF lt opq pinc tbl trans pfx fuel rest (remLeft - v2)
              (dw - overshoot) buf (a + overshoot)
          else
            tsqLeftClipF lt opq pinc tbl trans pfx fuel rest (remLeft - v2) dw
              buf a
    else some (src, dw, buf, a)

/-- The left-clip loop of `RenderTransparentSquareClipped`. -/
def tsqLeftClip (lt : LightType) (opq : Bool) (pinc : Int) (tbl : Nat → Nat)
    (trans : Nat → Nat → Nat) (pfx : Int) (src : List Nat)
    (remLeft dw : Int) (buf : Buf) (a : Int) :
    Option (List Nat × Int × Buf × Int) :=
  tsqLeftClipF lt opq pinc tbl trans pfx src.length src remLeft dw buf a

/-- The "draw the non-clipped segment" loop of
`RenderTransparentSquareClipped` (`drawWidth` is signed here); the `break`
cases return with `drawWidth` driven negative by the overshooting run. -/
def tsqDrawF (lt : LightType) (opq : Bool) (pinc : Int) (tbl : Nat → Nat)
    (trans : Nat → Nat → Nat) (pfx : Int) :
    Nat → List Nat → Int → Buf → Int → Option (List Nat × Int × Buf × Int)
  | fuel, src, dw, buf, a =>
    if dw > 0 then
      match fuel, src with
      | _, [] => none
      | 0, _ => none
      | fuel + 1, b :: rest =>
        let v := int8 b
        if 0 < v then
          if v > dw then
            if rest.length < dw.toNat then none
            else
              let buf := renderLine lt opq pinc tbl trans
                (fun j => rest.getD j 0) 0 dw.toNat buf a
                (toInt8 (pfx - (32 - dw)))
              some (rest.drop v.toNat, dw - v, buf, a + dw)
          else
            if rest.length < v.toNat then none
            else
              let buf := renderLine lt opq pinc tbl trans
                (fun j => rest.getD j 0) 0 v.toNat buf a
                (toInt8 (pfx - (32 - dw)))
              tsqDrawF lt opq pinc tbl trans pfx fuel (rest.drop v.toNat)
                (dw - v) buf (a + v)
        else
          let v2 := -v
          if v2 > dw then some (rest, dw - v2, buf, a + dw)
          else tsqDrawF lt opq pinc tbl trans pfx fuel rest (dw - v2) buf
            (a + v2)
    else some (src, dw, buf, a)

/-- The "draw the non-clipped segment" loop of
`RenderTransparentSquareClipped`. -/
def tsqDraw (lt : LightType) (opq : Bool) (pinc : Int) (tbl : Nat → Nat)
    (trans : Nat → Nat → Nat) (pfx : Int) (src : List Nat) (dw : Int)
    (buf : Buf) (a : Int) : Option (List Nat × Int × Buf × Int) :=
  tsqDrawF lt opq pinc tbl trans pfx src.length src dw buf a

/-- One scanline of `RenderTransparentSquareClipped`: the left-clip loop,
the draw loop, then `skipRestOfTheLine(clip.right + drawWidth)`. -/
def tsqLineClipped (lt : LightType) (opq : Bool) (pinc : Int) (tbl : Nat → Nat)
    (trans : Nat → Nat → Nat) (clip : Clip) (pfx : Int)
    (src : List Nat) (buf : Buf) (a : Int) : Option (List Nat × Buf × Int) :=
  match tsqLeftClip lt opq pinc tbl trans pfx src clip.left clip.width buf a with
  | none => none
  | some (src, dw, buf, a) =>
    match tsqDraw lt opq pinc tbl trans pfx src dw buf a with
    | none => none
    | some (src, dw, buf, a) =>
      match skipLine src (clip.right + dw) with
      | none => none
      | some src => some (src, buf, a)

/-- "Skip the bottom clipped lines" loop: `clip.bottom` applications of
`skipRestOfTheLine(Width)`. -/
def skipLines : Nat → List Nat → Option (List Nat)
  | 0, src => some src
  | k + 1, src =>
    match skipLine src 32 with
    | none => none
    | some src => skipLines k src

/-- Row loop of `RenderTransparentSquareClipped`: `clip.height` rows; after
each row `dst -= dstPitch + clip.width` and `prefix += PrefixIncrement`. -/
def tsqRowsClipped (lt : LightType) (opq : Bool) (pinc : Int) (tbl : Nat → Nat)
    (trans : Nat → Nat → Nat) (pitch : Int) (clip : Clip) :
    Nat → Int → List Nat → Buf → Int → Option Buf
  | 0, _, _, buf, _ => some buf
  | r + 1, pfx, src, buf, a =>
    match tsqLineClipped lt opq pinc tbl trans clip pfx src buf a with
    | none => none
    | some (src, buf, a) =>
      tsqRowsClipped lt opq pinc tbl trans pitch clip r (toInt8 (pfx + pinc))
        src buf (a - (pitch + clip.width))

/-- `RenderTransparentSquareClipped`. -/
def renderTransparentSquareClipped (lt : LightType) (opq : Bool) (pinc : Int)
    (tbl : Nat → Nat) (trans : Nat → Nat → Nat) (pitch : Int)
    (src : List Nat) (buf : Buf) (a : Int) (clip : Clip) : Option Buf :=
  match skipLines clip.bottom.toNat src with
  | none => none
  | some src =>
    tsqRowsClipped lt opq pinc tbl trans pitch clip clip.height.toNat
      (initPfxAt pinc clip.bottom) src buf a

/-! ### Well-formed RLE scanlines -/

/-- Decides whether the stream starts with a well-formed scanline of width
`w`: run lengths sum exactly to `w`, with every literal byte present.
Returns the rest of the stream after the line. -/
def wfLineFuel : Nat → Nat → List Nat → Option (List Nat)
  | _, 0, src => some src
  | 0, _ + 1, _ => none
  | fuel + 1, w + 1, src =>
    match src with
    | [] => none
    | b :: rest =>
      let v := int8 b
      if 0 < v then
        if v.toNat ≤ w + 1 ∧ v.toNat ≤ rest.length then
          wfLineFuel fuel (w + 1 - v.toNat) (rest.drop v.toNat)
        else none
      else
        if (-v).toNat ≤ w + 1 then wfLineFuel fuel (w + 1 - (-v).toNat) rest
        else none

/-- Well-formed scanline of width `w` at the head of the stream. -/
def wfLineF (w : Nat) (src : List Nat) : Option (List Nat) :=
  wfLineFuel src.length w src

/-- `n` consecutive well-formed scanlines of width 32. -/
def wfRows : Nat → List Nat → Option (List Nat)
  | 0, src => some src
  | r + 1, src =>
    match wfLineF 32 src with
    | none => none
    | some rest => wfRows r rest

/-- Whether the run lengths at the head of the stream sum exactly to `w` at
some point (the "run lengths sum exactly to the row width" condition; unlike
`wfLineF` it does not require the literal bytes to be present, matching the
fact that a pure skip never reads them). -/
def runsReachF : Nat → List Nat → Int → Bool
  | fuel, src, w =>
    if w = 0 then true
    else if w < 0 then false
    else
      match fuel, src with
      | _, [] => false
      | 0, _ => false
      | fuel + 1, b :: rest =>
        let v := int8 b
        if 0 < v then runsReachF fuel (rest.drop v.toNat) (w - v)
        else runsReachF fuel rest (w + v)

/-- Whether the run lengths at the head of the stream sum exactly to `w`. -/
def runsReach (src : List Nat) (w : Int) : Bool :=
  runsReachF src.length src w

/-! ### Mask types and dispatch -/

/-- `MaskType` from `dun_render.hpp`. -/
inductive MaskType : Type
  | Solid
  | Transparent
  | Right
  | Left
  | RightFoliage
  | LeftFoliage
deriving DecidableEq, Repr

/-- The `(OpaquePrefix, PrefixIncrement)` template instantiation selected for
each mask by `RenderTransparentSquareFullDispatch` (and identically by
`RenderTransparentSquareClippedDispatch`). -/
def maskParams : MaskType → Bool × Int
  | .Solid => (false, 0)
  | .Transparent => (true, 0)
  | .Left => (false, 2)
  | .Right => (true, -2)
  | .LeftFoliage => (true, 2)
  | .RightFoliage => (false, -2)

/-- The row boundary between the prefix and the rest of a full-width (32 px)
line for mask `m` at line `y` (counted from the bottom): the clamped prefix
`clamp<int8_t>(InitPrefix<PrefixIncrement>(y), 0, 32)` used by `RenderLine`. -/
def maskBoundary (m : MaskType) (y : Nat) : Int :=
  clampI (initPfxAt (maskParams m).2 (y : Int)) 0 32

/-- Whether pixel `x` of line `y` (both counted within the 32×32 tile, `y`
from the bottom) is written opaquely under mask `m`: for
`PrefixIncrement = 0` the whole tile is opaque iff `OpaquePrefix` is false
(`RenderLineTransparentOrOpaque<Light, OpaquePrefix>`); otherwise the prefix
`[0, maskBoundary)` is opaque iff `OpaquePrefix` is true. -/
def opaqueAt (m : MaskType) (y x : Nat) : Prop :=
  if (maskParams m).2 = 0 then (maskParams m).1 = false
  else if (maskParams m).1 then (x : Int) < maskBoundary m y
  else maskBoundary m y ≤ (x : Int)

instance (m : MaskType) (y x : Nat) : Decidable (opaqueAt m y x) := by
  unfold opaqueAt; infer_instance

/-- The `lightTableIndex == LightsMax ? FullyDark : lightTableIndex == 0 ?
FullyLit : PartiallyLit` selection made by every `...DispatchLight`
function. -/
def lightTypeFor (lightsMax idx : Nat) : LightType :=
  if idx = lightsMax then .fullyDark
  else if idx = 0 then .fullyLit
  else .dimLit

/-- `&LightTables[256 * lightTableIndex]`. -/
def tblAt (lightTables : Nat → Nat) (idx : Nat) : Nat → Nat :=
  fun p => lightTables (256 * idx + p)

/-- `RenderSquareFullDispatch` composed with
`RenderSquareFullDispatchLight`; the `app_fatal("Invalid mask type")`
default branch is `none`. -/
def renderSquareFullDispatch (m : MaskType) (lightsMax idx : Nat)
    (lightTables : Nat → Nat) (trans : Nat → Nat → Nat) (pitch : Int)
    (src : Nat → Nat) (s : Nat) (buf : Buf) (a : Int) : Option Buf :=
  match m with
  | .Solid => some (renderSquareFull (lightTypeFor lightsMax idx) false
      (tblAt lightTables idx) trans pitch src s buf a)
  | .Transparent => some (renderSquareFull (lightTypeFor lightsMax idx) true
      (tblAt lightTables idx) trans pitch src s buf a)
  | _ => none

/-- `RenderLeftTriangleFullDispatch` (with its `DispatchLight`). -/
def renderLeftTriangleFullDispatch (m : MaskType) (lightsMax idx : Nat)
    (lightTables : Nat → Nat) (trans : Nat → Nat → Nat) (pitch : Int)
    (src : Nat → Nat) (s : Nat) (buf : Buf) (a : Int) : Option Buf :=
  match m with
  | .Solid => some (renderLeftTriangleFull (lightTypeFor lightsMax idx) false
      (tblAt lightTables idx) trans pitch src s buf a)
  | .Transparent => some (renderLeftTriangleFull (lightTypeFor lightsMax idx)
      true (tblAt lightTables idx) trans pitch src s buf a)
  | _ => none

/-- `RenderRightTriangleFullDispatch` (with its `DispatchLight`). -/
def renderRightTriangleFullDispatch (m : MaskType) (lightsMax idx : Nat)
    (lightTables : Nat → Nat) (trans : Nat → Nat → Nat) (pitch : Int)
    (src : Nat → Nat) (s : Nat) (buf : Buf) (a : Int) : Option Buf :=
  match m with
  | .Solid => some (renderRightTriangleFull (lightTypeFor lightsMax idx) false
      (tblAt lightTables idx) trans pitch src s buf a)
  | .Transparent => some (renderRightTriangleFull (lightTypeFor lightsMax idx)
      true (tblAt lightTables idx) trans pitch src s buf a)
  | _ => none

/-- `RenderLeftTrapezoidFullDispatch` (with its `DispatchLight`): `Solid`,
`Transparent` and `Left` are valid, everything else is
`app_fatal("Invalid mask type")`. -/
def renderLeftTrapezoidFullDispatch (m : MaskType) (lightsMax idx : Nat)
    (lightTables : Nat → Nat) (trans : Nat → Nat → Nat) (pitch : Int)
    (src : Nat → Nat) (s : Nat) (buf : Buf) (a : Int) : Option Buf :=
  match m with
  | .Solid => some (renderLeftTrapezoidFull (lightTypeFor lightsMax idx) false
      0 (tblAt lightTables idx) trans pitch src s buf a)
  | .Transparent => some (renderLeftTrapezoidFull (lightTypeFor lightsMax idx)
      true 0 (tblAt lightTables idx) trans pitch src s buf a)
  | .Left => some (renderLeftTrapezoidFull (lightTypeFor lightsMax idx) false
      2 (tblAt lightTables idx) trans pitch src s buf a)
  | _ => none

/-- `RenderRightTrapezoidFullDispatch` (with its `DispatchLight`): `Solid`,
`Transparent` and `Right` are valid, everything else is
`app_fatal("Invalid mask type")`. -/
def renderRightTrapezoidFullDispatch (m : MaskType) (lightsMax idx : Nat)
    (lightTables : Nat → Nat) (trans : Nat → Nat → Nat) (pitch : Int)
    (src : Nat → Nat) (s : Nat) (buf : Buf) (a : Int) : Option Buf :=
  match m with
  | .Solid => some (renderRightTrapezoidFull (lightTypeFor lightsMax idx)
      false 0 (tblAt lightTables idx) trans pitch src s buf a)
  | .Transparent => some (renderRightTrapezoidFull (lightTypeFor lightsMax idx)
      true 0 (tblAt lightTables idx) trans pitch src s buf a)
  | .Right => some (renderRightTrapezoidFull (lightTypeFor lightsMax idx) true
      (-2) (tblAt lightTables idx) trans pitch src s buf a)
  | _ => none


/-! ### Pointwise characterization of the line compositor -/

theorem bufWrite_apply (buf : Buf) (a : Int) (v : Nat) (x : Int) :
    bufWrite buf a v x = if x = a then v else buf x := rfl

theorem renderLineOpaque_apply (lt : LightType) (tbl : Nat → Nat)
    (src : Nat → Nat) :
    ∀ (n s : Nat) (buf : Buf) (a x : Int),
      renderLineOpaque lt tbl src s n buf a x =
        if a ≤ x ∧ x < a + n then opaquePix lt tbl (src (s + (x - a).toNat))
        else buf x := by
  intro n
  induction n with
  | zero =>
    intro s buf a x
    simp only [renderLineOpaque]
    split
    · rename_i h; exfalso; omega
    · rfl
  | succ n ih =>
    intro s buf a x
    simp only [renderLineOpaque]
    rw [ih, bufWrite_apply]
    split_ifs <;>
      first
        | rfl
        | (exfalso; omega)
        | (congr 1; congr 1; omega)

theorem renderLineTransparent_apply (lt : LightType) (tbl : Nat → Nat)
    (trans : Nat → Nat → Nat) (src : Nat → Nat) :
    ∀ (n s : Nat) (buf : Buf) (a x : Int),
      renderLineTransparent lt tbl trans src s n buf a x =
        if a ≤ x ∧ x < a + n then
          blendPix lt tbl trans (buf x) (src (s + (x - a).toNat))
        else buf x := by
  intro n
  induction n with
  | zero =>
    intro s buf a x
    simp only [renderLineTransparent]
    split
    · rename_i h; exfalso; omega
    · rfl
  | succ n ih =>
    intro s buf a x
    simp only [renderLineTransparent]
    rw [ih]
    simp only [bufWrite_apply]
    split_ifs <;>
      first
        | rfl
        | (exfalso; omega)
        | (congr 1 <;> first | omega | (congr 1; omega))

theorem renderLineTransparentOrOpaque_apply (lt : LightType) (transp : Bool)
    (tbl : Nat → Nat) (trans : Nat → Nat → Nat) (src : Nat → Nat)
    (s n : Nat) (buf : Buf) (a x : Int) :
    renderLineTransparentOrOpaque lt transp tbl trans src s n buf a x =
      if a ≤ x ∧ x < a + n then
        if transp then blendPix lt tbl trans (buf x) (src (s + (x - a).toNat))
        else opaquePix lt tbl (src (s + (x - a).toNat))
      else buf x := by
  unfold renderLineTransparentOrOpaque
  cases transp with
  | true =>
    simp only [eq_self_iff_true, if_true]
    rw [renderLineTransparent_apply]
  | false =>
    simp only [Bool.false_eq_true, if_false]
    rw [renderLineOpaque_apply]

/-- Pointwise behaviour of `RenderLineTransparentAndOpaque` for `pw ≤ n`:
when `OpaquePrefix` the segment `[a, a+pw)` is opaque and `[a+pw, a+n)` is
blended (or skipped entirely for foliage); otherwise the two segments are
swapped. Pixels outside `[a, a+n)` are untouched. -/
theorem renderLineTransparentAndOpaque_apply (lt : LightType) (opq : Bool)
    (pinc : Int) (tbl : Nat → Nat) (trans : Nat → Nat → Nat) (src : Nat → Nat)
    (s pw n : Nat) (buf : Buf) (a x : Int) (hpw : pw ≤ n) :
    renderLineTransparentAndOpaque lt opq pinc tbl trans src s pw n buf a x =
      if opq then
        if a ≤ x ∧ x < a + pw then opaquePix lt tbl (src (s + (x - a).toNat))
        else if a ≤ x ∧ x < a + n then
          (if skipTransparentPixels opq pinc then buf x
           else blendPix lt tbl trans (buf x) (src (s + (x - a).toNat)))
        else buf x
      else
        if a ≤ x ∧ x < a + pw then
          (if skipTransparentPixels opq pinc then buf x
           else blendPix lt tbl trans (buf x) (src (s + (x - a).toNat)))
        else if a ≤ x ∧ x < a + n then
          opaquePix lt tbl (src (s + (x - a).toNat))
        else buf x := by
  unfold renderLineTransparentAndOpaque
  cases opq with
  | true =>
    simp only [eq_self_iff_true, if_true]
    by_cases hskip : skipTransparentPixels true pinc
    · simp only [if_pos hskip]
      rw [renderLineOpaque_apply]
      split_ifs <;> first | rfl | (exfalso; omega)
    · simp only [if_neg hskip]
      rw [renderLineTransparent_apply]
      simp only [renderLineOpaque_apply]
      split_ifs <;>
        first
          | rfl
          | (exfalso; omega)
          | (congr 1 <;> first | omega | (congr 1; omega))
  | false =>
    simp only [Bool.false_eq_true, if_false]
    by_cases hskip : skipTransparentPixels false pinc
    · simp only [if_pos hskip]
      rw [renderLineOpaque_apply]
      split_ifs <;>
        first
          | rfl
          | (exfalso; omega)
          | (congr 1; congr 1; omega)
    · simp only [if_neg hskip]
      rw [renderLineOpaque_apply]
      simp only [renderLineTransparent_apply]
      split_ifs <;>
        first
          | rfl
          | (exfalso; omega)
          | (congr 1 <;> first | omega | (congr 1; omega))

/-! ### Claims C2, C4, C5, C8, C10 -/

/-- C2: the line compositor satisfies the six-case table: for a run of `n`
pixels, opaque writes produce `memset 0` when fully dark, a byte copy of the
source when fully lit, and `dst[i] = lightTable[src[i]]` when partially lit;
blended writes produce `dst[i] = trans[0][dst[i]]` when fully dark,
`dst[i] = trans[dst[i]][src[i]]` when fully lit, and
`dst[i] = trans[dst[i]][lightTable[src[i]]]` when partially lit, for every
`i` in `0..n-1`. -/
theorem c2_line_compositor_table (tbl : Nat → Nat) (trans : Nat → Nat → Nat)
    (src : Nat → Nat) (s n : Nat) (buf : Buf) (a : Int) (i : Nat)
    (h : i < n) :
    renderLineOpaque .fullyDark tbl src s n buf a (a + i) = 0 ∧
    renderLineOpaque .fullyLit tbl src s n buf a (a + i) = src (s + i) ∧
    renderLineOpaque .dimLit tbl src s n buf a (a + i) = tbl (src (s + i)) ∧
    renderLineTransparent .fullyDark tbl trans src s n buf a (a + i) =
      trans 0 (buf (a + i)) ∧
    renderLineTransparent .fullyLit tbl trans src s n buf a (a + i) =
      trans (buf (a + i)) (src (s + i)) ∧
    renderLineTransparent .dimLit tbl trans src s n buf a (a + i) =
      trans (buf (a + i)) (tbl (src (s + i))) := by
  have hin : a ≤ a + (i : Int) ∧ a + (i : Int) < a + n := by omega
  have hi : s + (a + (i : Int) - a).toNat = s + i := by omega
  refine ⟨?_, ?_, ?_, ?_, ?_, ?_⟩ <;>
    first
      | (rw [renderLineOpaque_apply, if_pos hin, hi]; rfl)
      | (rw [renderLineTransparent_apply, if_pos hin, hi]; rfl)

/-- Witness for C2 at a concrete input. -/
theorem c2_line_compositor_table_witness :
    renderLineOpaque .fullyDark (fun b => b + 2) (fun k => k * 5) 4 3
      (fun _ => 9) 7 (7 + (1 : Nat)) = 0 ∧
    renderLineOpaque .fullyLit (fun b => b + 2) (fun k => k * 5) 4 3
      (fun _ => 9) 7 (7 + (1 : Nat)) = (fun k => k * 5) (4 + 1) ∧
    renderLineOpaque .dimLit (fun b => b + 2) (fun k => k * 5) 4 3
      (fun _ => 9) 7 (7 + (1 : Nat)) = (fun b => b + 2) ((fun k => k * 5) (4 + 1)) ∧
    renderLineTransparent .fullyDark (fun b => b + 2) (fun d b => d * 3 + b)
      (fun k => k * 5) 4 3 (fun _ => 9) 7 (7 + (1 : Nat)) =
      (fun d b => d * 3 + b) 0 ((fun _ => 9 : Buf) (7 + (1 : Nat))) ∧
    renderLineTransparent .fullyLit (fun b => b + 2) (fun d b => d * 3 + b)
      (fun k => k * 5) 4 3 (fun _ => 9) 7 (7 + (1 : Nat)) =
      (fun d b => d * 3 + b) ((fun _ => 9 : Buf) (7 + (1 : Nat)))
        ((fun k => k * 5) (4 + 1)) ∧
    renderLineTransparent .dimLit (fun b => b + 2) (fun d b => d * 3 + b)
      (fun k => k * 5) 4 3 (fun _ => 9) 7 (7 + (1 : Nat)) =
      (fun d b => d * 3 + b) ((fun _ => 9 : Buf) (7 + (1 : Nat)))
        ((fun b => b + 2) ((fun k => k * 5) (4 + 1))) :=
  c2_line_compositor_table (fun b => b + 2) (fun d b => d * 3 + b)
    (fun k => k * 5) 4 3 (fun _ => 9) 7 1 (by decide)

/-- C4: for all inputs, the `Clip` returned by `CalculateClip` (and by
`CalculateDunTileClip`) satisfies `width + left + right = w` and
`height + top + bottom = h`. -/
theorem c4_calculate_clip_invariant (x y w h outW outH : Int) :
    ((CalculateClip x y w h outW outH).width +
        (CalculateClip x y w h outW outH).left +
        (CalculateClip x y w h outW outH).right = w ∧
      (CalculateClip x y w h outW outH).height +
        (CalculateClip x y w h outW outH).top +
        (CalculateClip x y w h outW outH).bottom = h) ∧
    ((CalculateDunTileClip x y w h outW outH).width +
        (CalculateDunTileClip x y w h outW outH).left +
        (CalculateDunTileClip x y w h outW outH).right = w ∧
      (CalculateDunTileClip x y w h outW outH).height +
        (CalculateDunTileClip x y w h outW outH).top +
        (CalculateDunTileClip x y w h outW outH).bottom = h) := by
  refine ⟨⟨?_, ?_⟩, ⟨?_, ?_⟩⟩ <;>
    simp only [CalculateClip, CalculateDunTileClip] <;> ring

/-- C5: `CalculateDiamondClipY` returns exactly one of three mutually
exclusive outcomes, matching the three branches of the `if` chain. The
`DiamondClipY` fields below are `(lowerBottom, lowerTop, upperBottom,
upperTop)`. -/
theorem c5_diamond_clip_cases (uh : Int) (clip : Clip) :
    (clip.bottom > 16 →
      CalculateDiamondClipY uh clip =
        ⟨16, 0, clip.bottom - 16, 0⟩) ∧
    (clip.bottom ≤ 16 → clip.top > uh →
      CalculateDiamondClipY uh clip =
        ⟨0, clip.top - uh, 0, uh⟩) ∧
    (clip.bottom ≤ 16 → clip.top ≤ uh →
      CalculateDiamondClipY uh clip =
        ⟨clip.bottom, 0, 0, clip.top⟩) := by
  refine ⟨?_, ?_, ?_⟩
  · intro h1
    simp only [CalculateDiamondClipY, LowerHeight]
    rw [if_pos (by omega)]
  · intro h1 h2
    simp only [CalculateDiamondClipY, LowerHeight]
    rw [if_neg (by omega), if_pos (by omega)]
  · intro h1 h2
    simp only [CalculateDiamondClipY, LowerHeight]
    rw [if_neg (by omega), if_neg (by omega)]

/-- Witness for C5: each of the three branches at a concrete clip. -/
theorem c5_diamond_clip_cases_witness :
    CalculateDiamondClipY 15 ⟨0, 18, 0, 0, 32, 13⟩ = ⟨16, 0, 2, 0⟩ ∧
    CalculateDiamondClipY 15 ⟨17, 3, 0, 0, 32, 11⟩ = ⟨0, 2, 0, 15⟩ ∧
    CalculateDiamondClipY 15 ⟨5, 3, 0, 0, 32, 23⟩ = ⟨3, 0, 0, 5⟩ :=
  ⟨(c5_diamond_clip_cases 15 ⟨0, 18, 0, 0, 32, 13⟩).1 (by decide),
   (c5_diamond_clip_cases 15 ⟨17, 3, 0, 0, 32, 11⟩).2.1 (by decide) (by decide),
   (c5_diamond_clip_cases 15 ⟨5, 3, 0, 0, 32, 23⟩).2.2 (by decide) (by decide)⟩

/-- C10: the closed-form source-skip formulas equal the per-line sums they
replace: for `0 ≤ n ≤ 16`, `CalculateTriangleSourceSkipLowerBottom n` is the
sum over `i = 1..n` of `2 * (i % 2) + 2 * i`, and for `0 ≤ n ≤ 15`,
`CalculateTriangleSourceSkipUpperBottom n` is the sum over `i = 1..n` of
`2 * (i % 2) + (32 - 2 * i)`. -/
theorem c10_source_skip_closed_forms :
    (∀ n, n ≤ 16 →
      CalculateTriangleSourceSkipLowerBottom n = lowerLineSrcBytesSum n) ∧
    (∀ n, n ≤ 15 →
      CalculateTriangleSourceSkipUpperBottom n = upperLineSrcBytesSum n) := by
  constructor <;> decide

/-- Witness for C10 at the extreme line counts. -/
theorem c10_source_skip_closed_forms_witness :
    CalculateTriangleSourceSkipLowerBottom 16 = lowerLineSrcBytesSum 16 ∧
    CalculateTriangleSourceSkipUpperBottom 15 = upperLineSrcBytesSum 15 :=
  ⟨c10_source_skip_closed_forms.1 16 (by decide),
   c10_source_skip_closed_forms.2 15 (by decide)⟩

/-- C8: an opaque line write at light level `0` is independent of the light
table (the dispatch selects the fully-lit copy path, or the fully-dark fill
when `LightsMax = 0`), and an opaque line write at light level `LightsMax`
is independent of the source pixels: it is a pure fill of palette index 0. -/
theorem c8_light_level_hyperproperty (lightsMax : Nat) :
    (∀ (tbl₁ tbl₂ src : Nat → Nat) (s n : Nat) (buf : Buf) (a : Int),
      renderLineOpaque (lightTypeFor lightsMax 0) tbl₁ src s n buf a =
        renderLineOpaque (lightTypeFor lightsMax 0) tbl₂ src s n buf a) ∧
    (∀ (tbl src₁ src₂ : Nat → Nat) (s₁ s₂ n : Nat) (buf : Buf) (a : Int),
      renderLineOpaque (lightTypeFor lightsMax lightsMax) tbl src₁ s₁ n buf a =
        renderLineOpaque (lightTypeFor lightsMax lightsMax) tbl src₂ s₂ n buf
          a) ∧
    (∀ (tbl src : Nat → Nat) (s n : Nat) (buf : Buf) (a x : Int),
      a ≤ x → x < a + n →
      renderLineOpaque (lightTypeFor lightsMax lightsMax) tbl src s n buf a x =
        0) := by
  have hdark : lightTypeFor lightsMax lightsMax = .fullyDark := by
    simp [lightTypeFor]
  refine ⟨?_, ?_, ?_⟩
  · intro tbl₁ tbl₂ src s n buf a
    funext x
    rw [renderLineOpaque_apply, renderLineOpaque_apply]
    unfold lightTypeFor
    by_cases hm : (0 : Nat) = lightsMax
    · simp only [if_pos hm]
      split_ifs <;> rfl
    · simp only [if_neg hm, eq_self_iff_true, if_true]
      split_ifs <;> rfl
  · intro tbl src₁ src₂ s₁ s₂ n buf a
    funext x
    rw [hdark, renderLineOpaque_apply, renderLineOpaque_apply]
    split_ifs <;> rfl
  · intro tbl src s n buf a x h1 h2
    rw [hdark, renderLineOpaque_apply, if_pos ⟨h1, h2⟩]
    rfl

/-- Witness for C8 with `LightsMax = 15` (and the zero-fill conjunct at a
concrete in-range pixel). -/
theorem c8_light_level_hyperproperty_witness :
    renderLineOpaque (lightTypeFor 15 0) (fun b => b + 1) (fun k => k + 9) 0 4
      (fun _ => 3) 10 =
      renderLineOpaque (lightTypeFor 15 0) (fun b => b * 2) (fun k => k + 9) 0
        4 (fun _ => 3) 10 ∧
    renderLineOpaque (lightTypeFor 15 15) (fun b => b + 1) (fun k => k + 9) 0 4
      (fun _ => 3) 10 =
      renderLineOpaque (lightTypeFor 15 15) (fun b => b + 1) (fun k => k * 7) 5
        4 (fun _ => 3) 10 ∧
    renderLineOpaque (lightTypeFor 15 15) (fun b => b + 1) (fun k => k + 9) 0 4
      (fun _ => 3) 10 12 = 0 :=
  ⟨(c8_light_level_hyperproperty 15).1 (fun b => b + 1) (fun b => b * 2)
      (fun k => k + 9) 0 4 (fun _ => 3) 10,
   (c8_light_level_hyperproperty 15).2.1 (fun b => b + 1) (fun k => k + 9)
      (fun k => k * 7) 0 5 4 (fun _ => 3) 10,
   (c8_light_level_hyperproperty 15).2.2 (fun b => b + 1) (fun k => k + 9) 0 4
      (fun _ => 3) 10 12 (by decide) (by decide)⟩

/-! ### Claims C6, C7, C9 -/

theorem toInt8_eq_self (z : Int) (h1 : -128 ≤ z) (h2 : z < 128) :
    toInt8 z = z := by
  unfold toInt8
  omega

theorem clampI_spec (v lo hi : Int) (h : lo ≤ hi) :
    clampI v lo hi = if v < lo then lo else if hi < v then hi else v := by
  unfold clampI
  rw [min_def, max_def]
  split_ifs <;> omega

theorem clampI_toNat_le (pfx : Int) (n : Nat) :
    (clampI pfx 0 (n : Int)).toNat ≤ n := by
  rw [clampI_spec pfx 0 n (by omega)]
  split_ifs <;> omega

/-- C6: under the `(OpaquePrefix, PrefixIncrement)` parameters selected by
the mask dispatch, `Solid` renders every pixel opaquely and `Transparent`
blends every pixel (`RenderLine` degenerates to the corresponding full-line
primitive, and `opaqueAt` holds everywhere resp. nowhere); for `Left` and
`Right` the per-row boundary moves by exactly `2` pixels per row (`+2` for
`Left`, `-2` for `Right`), every pixel of the lower 16 rows is opaque, and
the upper rows taper diagonally (`maskBoundary` is the exact linear
diagonal). -/
theorem c6_mask_types (lt : LightType) (tbl : Nat → Nat)
    (trans : Nat → Nat → Nat) (src : Nat → Nat) (s n : Nat) (buf : Buf)
    (a pfx : Int) :
    (renderLine lt (maskParams .Solid).1 (maskParams .Solid).2 tbl trans src
        s n buf a pfx = renderLineOpaque lt tbl src s n buf a) ∧
    (renderLine lt (maskParams .Transparent).1 (maskParams .Transparent).2
        tbl trans src s n buf a pfx =
      renderLineTransparent lt tbl trans src s n buf a) ∧
    (∀ y x : Nat, y < 32 → x < 32 → opaqueAt .Solid y x) ∧
    (∀ y x : Nat, y < 32 → x < 32 → ¬ opaqueAt .Transparent y x) ∧
    (∀ y : Nat, 16 ≤ y → y + 1 < 32 →
      maskBoundary .Left (y + 1) = maskBoundary .Left y + 2 ∧
      maskBoundary .Right (y + 1) = maskBoundary .Right y - 2) ∧
    (∀ y x : Nat, y < 16 → x < 32 →
      opaqueAt .Left y x ∧ opaqueAt .Right y x) ∧
    (∀ y : Nat, 16 ≤ y → y < 32 →
      maskBoundary .Left y = 2 * ((y : Int) - 16) ∧
      maskBoundary .Right y = 32 - 2 * ((y : Int) - 16)) := by
  refine ⟨?_, ?_, ?_, ?_, ?_, ?_, ?_⟩
  · simp [renderLine, maskParams, renderLineTransparentOrOpaque]
  · simp [renderLine, maskParams, renderLineTransparentOrOpaque]
  · intro y x hy hx
    simp [opaqueAt, maskParams]
  · intro y x hy hx
    simp [opaqueAt, maskParams]
  · intro y h1 h2
    constructor <;>
      (simp only [maskBoundary, maskParams, initPfxAt, initPfx, toInt8,
        clampI, min_def, max_def]
       split_ifs <;> omega)
  · intro y x hy hx
    constructor <;>
      (dsimp only [opaqueAt, maskParams]
       simp only [maskBoundary, maskParams, initPfxAt, initPfx, toInt8,
         clampI, min_def, max_def]
       split_ifs <;> first | rfl | omega | simp_all)
  · intro y h1 h2
    constructor <;>
      (simp only [maskBoundary, maskParams, initPfxAt, initPfx, toInt8,
        clampI, min_def, max_def]
       split_ifs <;> omega)

/-- Witness for C6 at concrete rows/pixels. -/
theorem c6_mask_types_witness :
    opaqueAt .Solid 3 5 ∧
    ¬ opaqueAt .Transparent 3 5 ∧
    (maskBoundary .Left 21 = maskBoundary .Left 20 + 2 ∧
      maskBoundary .Right 21 = maskBoundary .Right 20 - 2) ∧
    (opaqueAt .Left 7 31 ∧ opaqueAt .Right 7 31) ∧
    (maskBoundary .Left 20 = 2 * ((20 : Int) - 16) ∧
      maskBoundary .Right 20 = 32 - 2 * ((20 : Int) - 16)) :=
  ⟨(c6_mask_types .fullyLit (fun b => b) (fun d _ => d) (fun k => k) 0 32
      (fun _ => 0) 0 0).2.2.1 3 5 (by decide) (by decide),
   (c6_mask_types .fullyLit (fun b => b) (fun d _ => d) (fun k => k) 0 32
      (fun _ => 0) 0 0).2.2.2.1 3 5 (by decide) (by decide),
   (c6_mask_types .fullyLit (fun b => b) (fun d _ => d) (fun k => k) 0 32
      (fun _ => 0) 0 0).2.2.2.2.1 20 (by decide) (by decide),
   (c6_mask_types .fullyLit (fun b => b) (fun d _ => d) (fun k => k) 0 32
      (fun _ => 0) 0 0).2.2.2.2.2.1 7 31 (by decide) (by decide),
   (c6_mask_types .fullyLit (fun b => b) (fun d _ => d) (fun k => k) 0 32
      (fun _ => 0) 0 0).2.2.2.2.2.2 20 (by decide) (by decide)⟩

/-- C7: for the foliage masks (`LeftFoliage = (OpaquePrefix := true,
PrefixIncrement := 2)`, `RightFoliage = (false, -2)` per the dispatch),
every destination pixel in the non-opaque region of a `RenderLine` segment
is left unchanged — neither opaque-written nor blended — while pixels in
the opaque region receive the usual opaque value. -/
theorem c7_foliage_skips_pixels (lt : LightType) (tbl : Nat → Nat)
    (trans : Nat → Nat → Nat) (src : Nat → Nat) (s n : Nat) (buf : Buf)
    (a pfx : Int) (x : Nat) (hx : x < n) :
    ((clampI pfx 0 (n : Int)).toNat ≤ x →
      renderLine lt (maskParams .LeftFoliage).1 (maskParams .LeftFoliage).2
        tbl trans src s n buf a pfx (a + x) = buf (a + x)) ∧
    (x < (clampI pfx 0 (n : Int)).toNat →
      renderLine lt (maskParams .LeftFoliage).1 (maskParams .LeftFoliage).2
        tbl trans src s n buf a pfx (a + x) =
        opaquePix lt tbl (src (s + x))) ∧
    (x < (clampI pfx 0 (n : Int)).toNat →
      renderLine lt (maskParams .RightFoliage).1 (maskParams .RightFoliage).2
        tbl trans src s n buf a pfx (a + x) = buf (a + x)) ∧
    ((clampI pfx 0 (n : Int)).toNat ≤ x →
      renderLine lt (maskParams .RightFoliage).1 (maskParams .RightFoliage).2
        tbl trans src s n buf a pfx (a + x) =
        opaquePix lt tbl (src (s + x))) := by
  have hpw := clampI_toNat_le pfx n
  have hskipL : skipTransparentPixels true 2 = true := by decide
  have hskipR : skipTransparentPixels false (-2) = true := by decide
  have hidx : s + (a + (x : Int) - a).toNat = s + x := by omega
  refine ⟨?_, ?_, ?_, ?_⟩ <;> intro hcl
  · simp only [maskParams]
    rw [renderLine, if_neg (by omega),
      renderLineTransparentAndOpaque_apply _ _ _ _ _ _ _ _ _ _ _ _ hpw]
    simp only [eq_self_iff_true, if_true, hskipL]
    rw [if_neg (by omega), if_pos (by constructor <;> omega)]
  · simp only [maskParams]
    rw [renderLine, if_neg (by omega),
      renderLineTransparentAndOpaque_apply _ _ _ _ _ _ _ _ _ _ _ _ hpw]
    simp only [eq_self_iff_true, if_true]
    rw [if_pos (by constructor <;> omega), hidx]
  · simp only [maskParams]
    rw [renderLine, if_neg (by omega),
      renderLineTransparentAndOpaque_apply _ _ _ _ _ _ _ _ _ _ _ _ hpw]
    simp only [Bool.false_eq_true, if_false, hskipR]
    rw [if_pos (by constructor <;> omega)]
    simp
  · simp only [maskParams]
    rw [renderLine, if_neg (by omega),
      renderLineTransparentAndOpaque_apply _ _ _ _ _ _ _ _ _ _ _ _ hpw]
    simp only [Bool.false_eq_true, if_false]
    rw [if_neg (by omega), if_pos (by constructor <;> omega), hidx]

/-- Witness for C7 at a concrete prefix and pixel. -/
theorem c7_foliage_skips_pixels_witness :
    ((clampI 3 0 ((8 : Nat) : Int)).toNat ≤ 5 →
      renderLine .fullyLit (maskParams .LeftFoliage).1
        (maskParams .LeftFoliage).2 (fun b => b) (fun d _ => d) (fun k => k)
        0 8 (fun _ => 7) 100 3 (100 + (5 : Nat)) = (fun _ => 7 : Buf)
          (100 + (5 : Nat))) ∧
    (5 < (clampI 3 0 ((8 : Nat) : Int)).toNat →
      renderLine .fullyLit (maskParams .LeftFoliage).1
        (maskParams .LeftFoliage).2 (fun b => b) (fun d _ => d) (fun k => k)
        0 8 (fun _ => 7) 100 3 (100 + (5 : Nat)) =
        opaquePix .fullyLit (fun b => b) ((fun k => k) (0 + 5))) ∧
    (5 < (clampI 3 0 ((8 : Nat) : Int)).toNat →
      renderLine .fullyLit (maskParams .RightFoliage).1
        (maskParams .RightFoliage).2 (fun b => b) (fun d _ => d) (fun k => k)
        0 8 (fun _ => 7) 100 3 (100 + (5 : Nat)) = (fun _ => 7 : Buf)
          (100 + (5 : Nat))) ∧
    ((clampI 3 0 ((8 : Nat) : Int)).toNat ≤ 5 →
      renderLine .fullyLit (maskParams .RightFoliage).1
        (maskParams .RightFoliage).2 (fun b => b) (fun d _ => d) (fun k => k)
        0 8 (fun _ => 7) 100 3 (100 + (5 : Nat)) =
        opaquePix .fullyLit (fun b => b) ((fun k => k) (0 + 5))) :=
  c7_foliage_skips_pixels .fullyLit (fun b => b) (fun d _ => d) (fun k => k)
    0 8 (fun _ => 7) 100 3 5 (by decide)

/-- C9: requesting an invalid shape/mask combination returns the fatal
branch (`app_fatal`, modelled as `none`), and valid combinations never
reach it: any mask other than `Solid`/`Transparent` is fatal for `Square`,
`LeftTriangle` and `RightTriangle`; any mask other than
`Solid`/`Transparent`/`Left` is fatal for `LeftTrapezoid`; any mask other
than `Solid`/`Transparent`/`Right` is fatal for `RightTrapezoid`. -/
theorem c9_invalid_mask_is_fatal (m : MaskType) (lightsMax idx : Nat)
    (lightTables : Nat → Nat) (trans : Nat → Nat → Nat) (pitch : Int)
    (src : Nat → Nat) (s : Nat) (buf : Buf) (a : Int) :
    (renderSquareFullDispatch m lightsMax idx lightTables trans pitch src s
        buf a = none ↔ m ≠ .Solid ∧ m ≠ .Transparent) ∧
    (renderLeftTriangleFullDispatch m lightsMax idx lightTables trans pitch
        src s buf a = none ↔ m ≠ .Solid ∧ m ≠ .Transparent) ∧
    (renderRightTriangleFullDispatch m lightsMax idx lightTables trans pitch
        src s buf a = none ↔ m ≠ .Solid ∧ m ≠ .Transparent) ∧
    (renderLeftTrapezoidFullDispatch m lightsMax idx lightTables trans pitch
        src s buf a = none ↔
      m ≠ .Solid ∧ m ≠ .Transparent ∧ m ≠ .Left) ∧
    (renderRightTrapezoidFullDispatch m lightsMax idx lightTables trans pitch
        src s buf a = none ↔
      m ≠ .Solid ∧ m ≠ .Transparent ∧ m ≠ .Right) := by
  cases m <;>
    simp [renderSquareFullDispatch, renderLeftTriangleFullDispatch,
      renderRightTriangleFullDispatch, renderLeftTrapezoidFullDispatch,
      renderRightTrapezoidFullDispatch]

/-! ### Claim C3 -/

theorem skipLineF_some_runsReachF :
    ∀ (fuel : Nat) (src : List Nat) (rem : Int) (rest : List Nat),
      skipLineF fuel src rem = some rest → runsReachF fuel src rem = true := by
  intro fuel
  induction fuel with
  | zero =>
    intro src rem rest h
    rw [skipLineF.eq_def] at h
    dsimp only at h
    by_cases h1 : rem > 0
    · exfalso
      rw [if_pos h1] at h
      cases src <;> simp at h
    · rw [if_neg h1] at h
      by_cases h2 : rem = 0
      · rw [runsReachF.eq_def]
        dsimp only
        rw [if_pos h2]
      · rw [if_neg h2] at h; simp at h
  | succ fuel ih =>
    intro src rem rest h
    rw [skipLineF.eq_def] at h
    dsimp only at h
    by_cases h1 : rem > 0
    · rw [if_pos h1] at h
      cases src with
      | nil => simp at h
      | cons b rest₀ =>
        rw [runsReachF.eq_def]
        dsimp only
        rw [if_neg (by omega), if_neg (by omega)]
        dsimp only at h ⊢
        by_cases hv : 0 < int8 b
        · rw [if_pos hv] at h ⊢
          exact ih _ _ _ h
        · rw [if_neg hv] at h ⊢
          exact ih _ _ _ h
    · rw [if_neg h1] at h
      by_cases h2 : rem = 0
      · rw [runsReachF.eq_def]
        dsimp only
        rw [if_pos h2]
      · rw [if_neg h2] at h; simp at h

/-- C3 (amended): the clipped decoding path's line skip
(`skipRestOfTheLine`, whose trailing `assert(remainingWidth == 0)` is the
decode-invariant check) succeeds only when the run lengths sum exactly to
the requested width, and fails (`none`, the assertion) whenever they do
not. The unclipped path performs no such check (see the counterexample). -/
theorem c3_clipped_skip_asserts_exact_width :
    (∀ (src : List Nat) (rem : Int) (rest : List Nat),
      skipLine src rem = some rest → runsReach src rem = true) ∧
    (∀ (src : List Nat) (rem : Int),
      runsReach src rem = false → skipLine src rem = none) := by
  constructor
  · intro src rem rest h
    exact skipLineF_some_runsReachF _ _ _ _ h
  · intro src rem h
    cases hs : skipLine src rem with
    | none => rfl
    | some rest =>
      exfalso
      have := skipLineF_some_runsReachF _ _ _ _ hs
      rw [runsReach] at h
      rw [this] at h
      exact Bool.true_eq_false.mp h

/-- Witness for C3 (amended) at concrete scanlines: `[224]` is a single
full-width skip run (sums exactly to 32), `[208]` is a skip run of 48
(overshoots 32). -/
theorem c3_clipped_skip_asserts_exact_width_witness :
    runsReach [224] 32 = true ∧ skipLine [208] 32 = none :=
  ⟨c3_clipped_skip_asserts_exact_width.1 [224] 32 [] (by decide),
   c3_clipped_skip_asserts_exact_width.2 [208] 32 (by decide)⟩

/-- Counterexample to C3 as stated: a scanline whose runs sum to
`40 + 128 + 120 = 288 ≠ 32` (`runsReach … 32 = false`). The clipped path's
skip fails on it, but the unclipped decoder `RenderTransparentSquareFull`
completes the scanline without any failure — the mismatch is not treated as
a hard failure in the unclipped path. -/
theorem c3_unclipped_no_mismatch_check :
    runsReach (40 :: (List.replicate 40 5 ++ [128, 136])) 32 = false ∧
    skipLine (40 :: (List.replicate 40 5 ++ [128, 136])) 32 = none ∧
    (tsqLineFull .fullyLit false 0 (fun b => b) (fun _ _ => 9) (-32)
        (40 :: (List.replicate 40 5 ++ [128, 136])) 32 (fun _ => 7)
        0).isSome = true := by
  refine ⟨by decide, by decide, by decide⟩

/-! ### Claim C1: full/clipped equivalence helpers -/

/-- The full-tile clip: `top = bottom = left = right = 0`, full width and
height. -/
def fullTileClip (w h : Int) : Clip :=
  { top := 0, bottom := 0, left := 0, right := 0, width := w, height := h }

theorem c1_square_equiv (lt : LightType) (transp : Bool) (tbl : Nat → Nat)
    (trans : Nat → Nat → Nat) (pitch : Int) (src : Nat → Nat) (s : Nat)
    (buf : Buf) (a : Int) :
    renderSquareClipped lt transp tbl trans pitch src s buf a
        (fullTileClip 32 32) =
      renderSquareFull lt transp tbl trans pitch src s buf a := by
  unfold renderSquareClipped renderSquareFull fullTileClip
  norm_num [Int.toNat_ofNat]
  rfl

theorem diamondClipY_full_tri :
    CalculateDiamondClipY TriangleUpperHeight (fullTileClip 32 31) =
      ⟨0, 0, 0, 0⟩ := by
  decide

theorem diamondClipY_full_trap :
    CalculateDiamondClipY TrapezoidUpperHeight (fullTileClip 32 32) =
      ⟨0, 0, 0, 0⟩ := by
  decide

theorem c1_left_triangle_equiv (lt : LightType) (transp : Bool)
    (tbl : Nat → Nat) (trans : Nat → Nat → Nat) (pitch : Int)
    (src : Nat → Nat) (s : Nat) (buf : Buf) (a : Int) :
    renderLeftTriangleClipVertical lt transp tbl trans pitch src s buf a
        (fullTileClip 32 31) =
      renderLeftTriangleFull lt transp tbl trans pitch src s buf a := by
  unfold renderLeftTriangleClipVertical renderLeftTriangleFull
  rw [diamondClipY_full_tri]
  unfold renderLeftTriangleLowerClipVertical renderLeftTriangleLower
  norm_num [CalculateTriangleSourceSkipLowerBottom,
    CalculateTriangleSourceSkipUpperBottom, Int.toNat_ofNat]
  rfl

theorem c1_right_triangle_equiv (lt : LightType) (transp : Bool)
    (tbl : Nat → Nat) (trans : Nat → Nat → Nat) (pitch : Int)
    (src : Nat → Nat) (s : Nat) (buf : Buf) (a : Int) :
    renderRightTriangleClipVertical lt transp tbl trans pitch src s buf a
        (fullTileClip 32 31) =
      renderRightTriangleFull lt transp tbl trans pitch src s buf a := by
  unfold renderRightTriangleClipVertical renderRightTriangleFull
  rw [diamondClipY_full_tri]
  unfold renderRightTriangleLowerClipVertical renderRightTriangleLower
  norm_num [CalculateTriangleSourceSkipLowerBottom,
    CalculateTriangleSourceSkipUpperBottom, Int.toNat_ofNat]
  rfl

theorem renderLineTAO_pw_zero (lt : LightType) (opq : Bool) (tbl : Nat → Nat)
    (trans : Nat → Nat → Nat) (src : Nat → Nat) (s n : Nat) (buf : Buf)
    (a : Int) :
    renderLineTransparentAndOpaque lt opq 0 tbl trans src s 0 n buf a =
      renderLineTransparentOrOpaque lt opq tbl trans src s n buf a := by
  unfold renderLineTransparentAndOpaque renderLineTransparentOrOpaque
  have hskip : skipTransparentPixels opq (0 : Int) = false := by
    cases opq <;> decide
  rw [hskip]
  cases opq <;> simp [renderLineOpaque, renderLineTransparent]

theorem trapUpper_pinc_zero_equiv (lt : LightType) (opq : Bool)
    (tbl : Nat → Nat) (trans : Nat → Nat → Nat) (pitch : Int)
    (src : Nat → Nat) :
    ∀ (cnt : Nat) (pfx : Int) (s : Nat) (buf : Buf) (a : Int),
      trapUpperRowsClipVertical lt opq 0 tbl trans pitch src cnt pfx s buf a =
        trapUpperRowsFull lt opq 0 tbl trans pitch src cnt 0 s buf a := by
  intro cnt
  induction cnt with
  | zero => intro pfx s buf a; rfl
  | succ cnt ih =>
    intro pfx s buf a
    unfold trapUpperRowsClipVertical trapUpperRowsFull
    dsimp only
    rw [if_neg (by simp : ¬(0 : Int) ≠ 0)]
    rw [ih]
    rw [renderLine, if_pos rfl]
    rw [show ((0 : Int)).toNat = 0 from rfl]
    rw [renderLineTAO_pw_zero]

theorem c1_left_trapezoid_equiv (lt : LightType) (opq : Bool)
    (tbl : Nat → Nat) (trans : Nat → Nat → Nat) (pitch : Int)
    (src : Nat → Nat) (s : Nat) (buf : Buf) (a : Int) :
    renderLeftTrapezoidClipVertical lt opq 0 tbl trans pitch src s buf a
        (fullTileClip 32 32) =
      renderLeftTrapezoidFull lt opq 0 tbl trans pitch src s buf a := by
  unfold renderLeftTrapezoidClipVertical renderLeftTrapezoidFull
  rw [diamondClipY_full_trap]
  unfold renderLeftTriangleLowerClipVertical renderLeftTriangleLower
  unfold renderTrapezoidUpperHalfClipVertical renderTrapezoidUpperHalf
  rw [trapUpper_pinc_zero_equiv]
  norm_num [CalculateTriangleSourceSkipLowerBottom, fullTileClip,
    Int.toNat_ofNat]
  rfl

theorem c1_right_trapezoid_equiv (lt : LightType) (opq : Bool)
    (tbl : Nat → Nat) (trans : Nat → Nat → Nat) (pitch : Int)
    (src : Nat → Nat) (s : Nat) (buf : Buf) (a : Int) :
    renderRightTrapezoidClipVertical lt opq 0 tbl trans pitch src s buf a
        (fullTileClip 32 32) =
      renderRightTrapezoidFull lt opq 0 tbl trans pitch src s buf a := by
  unfold renderRightTrapezoidClipVertical renderRightTrapezoidFull
  rw [diamondClipY_full_trap]
  unfold renderRightTriangleLowerClipVertical renderRightTriangleLower
  unfold renderTrapezoidUpperHalfClipVertical renderTrapezoidUpperHalf
  rw [trapUpper_pinc_zero_equiv]
  norm_num [CalculateTriangleSourceSkipLowerBottom, fullTileClip,
    Int.toNat_ofNat]
  rfl

theorem tsqLeftClip_zero (lt : LightType) (opq : Bool) (pinc : Int)
    (tbl : Nat → Nat) (trans : Nat → Nat → Nat) (pfx : Int) (src : List Nat)
    (dw : Int) (buf : Buf) (a : Int) :
    tsqLeftClip lt opq pinc tbl trans pfx src 0 dw buf a =
      some (src, dw, buf, a) := by
  rw [tsqLeftClip, tsqLeftClipF.eq_def]
  dsimp only
  rw [if_neg (by omega)]

theorem skipLine_zero (src : List Nat) : skipLine src 0 = some src := by
  rw [skipLine, skipLineF.eq_def]
  dsimp only
  rw [if_neg (by omega), if_pos rfl]

theorem tsq_line_wf_equiv (lt : LightType) (opq : Bool) (pinc : Int)
    (tbl : Nat → Nat) (trans : Nat → Nat → Nat) :
    ∀ (fuelC : Nat) (src : List Nat) (w : Nat) (rest : List Nat),
      src.length ≤ fuelC → wfLineFuel fuelC w src = some rest → w ≤ 32 →
      ∀ (buf : Buf) (a pfx : Int) (fuelA fuelB : Nat),
        src.length ≤ fuelA → src.length ≤ fuelB →
        ∃ B, tsqLineFullF lt opq pinc tbl trans pfx fuelA src w buf a =
              some (rest, B, a + w) ∧
            tsqDrawF lt opq pinc tbl trans pfx fuelB src (w : Int) buf a =
              some (rest, 0, B, a + w) := by
  intro fuelC
  induction fuelC with
  | zero =>
    intro src w rest hlen hwf hw buf a pfx fuelA fuelB hA hB
    have hsrc : src = [] := by
      cases src
      · rfl
      · simp at hlen
    subst hsrc
    cases w with
    | zero =>
      simp only [wfLineFuel, Option.some.injEq] at hwf
      subst hwf
      refine ⟨buf, ?_, ?_⟩
      · rw [tsqLineFullF.eq_def]
        dsimp only
        rw [if_pos rfl]
        simp
      · rw [tsqDrawF.eq_def]
        dsimp only
        rw [if_neg (by omega)]
        simp
    | succ w => simp [wfLineFuel] at hwf
  | succ fuelC ih =>
    intro src w rest hlen hwf hw buf a pfx fuelA fuelB hA hB
    cases w with
    | zero =>
      simp only [wfLineFuel, Option.some.injEq] at hwf
      subst hwf
      refine ⟨buf, ?_, ?_⟩
      · rw [tsqLineFullF.eq_def]
        dsimp only
        rw [if_pos rfl]
        simp
      · rw [tsqDrawF.eq_def]
        dsimp only
        rw [if_neg (by omega)]
        simp
    | succ w =>
      cases src with
      | nil => simp [wfLineFuel] at hwf
      | cons b rest₀ =>
        rw [wfLineFuel.eq_def] at hwf
        dsimp only at hwf
        cases fuelA with
        | zero => simp at hA
        | succ fA =>
        cases fuelB with
        | zero => simp at hB
        | succ fB =>
        simp only [List.length_cons] at hlen hA hB
        by_cases hv : 0 < int8 b
        · rw [if_pos hv] at hwf
          by_cases hc : (int8 b).toNat ≤ w + 1 ∧ (int8 b).toNat ≤ rest₀.length
          · rw [if_pos hc] at hwf
            obtain ⟨B, hF, hD⟩ := ih (rest₀.drop (int8 b).toNat)
              (w + 1 - (int8 b).toNat) rest
              (by simp only [List.length_drop]; omega) hwf (by omega)
              (renderLine lt opq pinc tbl trans (fun j => rest₀.getD j 0) 0
                (int8 b).toNat buf a
                (toInt8 (pfx - (32 - ((w + 1 : Nat) : Int)))))
              (a + ((int8 b).toNat : Int)) pfx fA fB
              (by simp only [List.length_drop]; omega)
              (by simp only [List.length_drop]; omega)
            rw [show a + ((int8 b).toNat : Int) +
                ((w + 1 - (int8 b).toNat : Nat) : Int) =
                a + ((w + 1 : Nat) : Int) from by omega] at hF hD
            refine ⟨B, ?_, ?_⟩
            · rw [tsqLineFullF.eq_def]
              dsimp only
              rw [if_neg (by omega), if_pos hv,
                if_neg (by omega : ¬rest₀.length < (int8 b).toNat),
                show (w + 1 + 256 - (int8 b).toNat) % 256 =
                  w + 1 - (int8 b).toNat from by omega]
              exact hF
            · rw [tsqDrawF.eq_def]
              dsimp only
              rw [if_pos (by omega : ((w + 1 : Nat) : Int) > 0), if_pos hv,
                if_neg (by omega : ¬int8 b > ((w + 1 : Nat) : Int)),
                if_neg (by omega : ¬rest₀.length < (int8 b).toNat),
                show ((w + 1 : Nat) : Int) - int8 b =
                  ((w + 1 - (int8 b).toNat : Nat) : Int) from by omega,
                show a + int8 b = a + ((int8 b).toNat : Int) from by omega]
              exact hD
          · rw [if_neg hc] at hwf
            simp at hwf
        · rw [if_neg hv] at hwf
          by_cases hc : (-int8 b).toNat ≤ w + 1
          · rw [if_pos hc] at hwf
            obtain ⟨B, hF, hD⟩ := ih rest₀ (w + 1 - (-int8 b).toNat) rest
              (by omega) hwf (by omega) buf (a + ((-int8 b).toNat : Int)) pfx
              fA fB (by omega) (by omega)
            rw [show a + ((-int8 b).toNat : Int) +
                ((w + 1 - (-int8 b).toNat : Nat) : Int) =
                a + ((w + 1 : Nat) : Int) from by omega] at hF hD
            refine ⟨B, ?_, ?_⟩
            · rw [tsqLineFullF.eq_def]
              dsimp only
              rw [if_neg (by omega), if_neg hv,
                show (w + 1 + 256 - (-int8 b).toNat) % 256 =
                  w + 1 - (-int8 b).toNat from by omega]
              exact hF
            · rw [tsqDrawF.eq_def]
              dsimp only
              rw [if_pos (by omega : ((w + 1 : Nat) : Int) > 0), if_neg hv,
                if_neg (by omega : ¬-int8 b > ((w + 1 : Nat) : Int)),
                show ((w + 1 : Nat) : Int) - -int8 b =
                  ((w + 1 - (-int8 b).toNat : Nat) : Int) from by omega,
                show a + -int8 b = a + ((-int8 b).toNat : Int) from by omega]
              exact hD
          · rw [if_neg hc] at hwf
            simp at hwf

theorem tsq_row_wf_equiv (lt : LightType) (opq : Bool) (pinc : Int)
    (tbl : Nat → Nat) (trans : Nat → Nat → Nat) (src rest : List Nat)
    (hwf : wfLineF 32 src = some rest) (buf : Buf) (a pfx : Int) :
    ∃ B, tsqLineFull lt opq pinc tbl trans pfx src 32 buf a =
          some (rest, B, a + 32) ∧
        tsqLineClipped lt opq pinc tbl trans (fullTileClip 32 32) pfx src buf
            a = some (rest, B, a + 32) := by
  rw [wfLineF] at hwf
  obtain ⟨B, hF, hD⟩ := tsq_line_wf_equiv lt opq pinc tbl trans src.length
    src 32 rest le_rfl hwf (by omega) buf a pfx src.length src.length le_rfl
    le_rfl
  have h32 : ((32 : Nat) : Int) = 32 := by norm_num
  rw [h32] at hF hD
  refine ⟨B, hF, ?_⟩
  unfold tsqLineClipped fullTileClip
  dsimp only
  rw [tsqLeftClip_zero]
  dsimp only
  unfold tsqDraw
  rw [hD]
  dsimp only
  rw [show (0 : Int) + 0 = 0 from by norm_num, skipLine_zero]

theorem tsq_rows_wf_equiv (lt : LightType) (opq : Bool) (pinc : Int)
    (tbl : Nat → Nat) (trans : Nat → Nat → Nat) (pitch : Int) :
    ∀ (r : Nat) (src rest : List Nat), wfRows r src = some rest →
    ∀ (pfx : Int) (buf : Buf) (a : Int),
      tsqRowsClipped lt opq pinc tbl trans pitch (fullTileClip 32 32) r pfx
          src buf a =
        tsqRowsFull lt opq pinc tbl trans pitch r pfx src buf a ∧
      (tsqRowsFull lt opq pinc tbl trans pitch r pfx src buf a).isSome =
        true := by
  intro r
  induction r with
  | zero =>
    intro src rest hwf pfx buf a
    exact ⟨rfl, rfl⟩
  | succ r ih =>
    intro src rest hwf pfx buf a
    rw [wfRows] at hwf
    cases hline : wfLineF 32 src with
    | none => rw [hline] at hwf; simp at hwf
    | some rest₁ =>
      rw [hline] at hwf
      obtain ⟨B, hF, hC⟩ :=
        tsq_row_wf_equiv lt opq pinc tbl trans src rest₁ hline buf a pfx
      unfold tsqRowsClipped tsqRowsFull
      rw [hF, hC]
      dsimp only [fullTileClip]
      exact ih rest₁ rest hwf (toInt8 (pfx + pinc)) B (a + 32 - (pitch + 32))

theorem toInt8_initPfx (pinc : Int) : toInt8 (initPfx pinc) = initPfx pinc := by
  unfold initPfx
  split_ifs <;> decide

theorem c1_tsq_equiv (lt : LightType) (opq : Bool) (pinc : Int)
    (tbl : Nat → Nat) (trans : Nat → Nat → Nat) (pitch : Int)
    (src rest : List Nat) (buf : Buf) (a : Int)
    (hwf : wfRows 32 src = some rest) :
    renderTransparentSquareClipped lt opq pinc tbl trans pitch src buf a
        (fullTileClip 32 32) =
      renderTransparentSquareFull lt opq pinc tbl trans pitch src buf a ∧
    (renderTransparentSquareFull lt opq pinc tbl trans pitch src buf
        a).isSome = true := by
  unfold renderTransparentSquareClipped renderTransparentSquareFull
  dsimp only [fullTileClip]
  rw [show ((0 : Int)).toNat = 0 from rfl, skipLines]
  rw [show ((32 : Int)).toNat = 32 from rfl]
  rw [show initPfxAt pinc 0 = initPfx pinc from by
    unfold initPfxAt
    rw [mul_zero, add_zero, toInt8_initPfx]]
  exact tsq_rows_wf_equiv lt opq pinc tbl trans pitch 32 src rest hwf
    (initPfx pinc) buf a

/-- C1 (amended): with a clip equal to the full tile, the clipped routine of
every shape draws exactly what the unclipped routine draws — for `Square`
(both valid masks), for `TransparentSquare` under every mask instantiation
provided every scanline of the RLE stream is well-formed, for the triangles
(both valid masks), and for the trapezoids under their `PrefixIncrement = 0`
masks (`Solid`/`Transparent`). (For the trapezoids' diagonal masks the two
paths genuinely differ — see the counterexample — and for a malformed RLE
stream the clipped `TransparentSquare` path aborts where the full path does
not.) -/
theorem c1_full_clip_equivalence (lt : LightType) (tbl : Nat → Nat)
    (trans : Nat → Nat → Nat) (pitch : Int) (srcF : Nat → Nat) (s : Nat)
    (buf : Buf) (a : Int) (tsrc trest : List Nat)
    (hwf : wfRows 32 tsrc = some trest) :
    (∀ transp : Bool,
      renderSquareClipped lt transp tbl trans pitch srcF s buf a
          (fullTileClip 32 32) =
        renderSquareFull lt transp tbl trans pitch srcF s buf a) ∧
    (∀ (opq : Bool) (pinc : Int),
      renderTransparentSquareClipped lt opq pinc tbl trans pitch tsrc buf a
          (fullTileClip 32 32) =
        renderTransparentSquareFull lt opq pinc tbl trans pitch tsrc buf a ∧
      (renderTransparentSquareFull lt opq pinc tbl trans pitch tsrc buf
          a).isSome = true) ∧
    (∀ transp : Bool,
      renderLeftTriangleClipVertical lt transp tbl trans pitch srcF s buf a
          (fullTileClip 32 31) =
        renderLeftTriangleFull lt transp tbl trans pitch srcF s buf a) ∧
    (∀ transp : Bool,
      renderRightTriangleClipVertical lt transp tbl trans pitch srcF s buf a
          (fullTileClip 32 31) =
        renderRightTriangleFull lt transp tbl trans pitch srcF s buf a) ∧
    (∀ opq : Bool,
      renderLeftTrapezoidClipVertical lt opq 0 tbl trans pitch srcF s buf a
          (fullTileClip 32 32) =
        renderLeftTrapezoidFull lt opq 0 tbl trans pitch srcF s buf a) ∧
    (∀ opq : Bool,
      renderRightTrapezoidClipVertical lt opq 0 tbl trans pitch srcF s buf a
          (fullTileClip 32 32) =
        renderRightTrapezoidFull lt opq 0 tbl trans pitch srcF s buf a) :=
  ⟨fun transp => c1_square_equiv lt transp tbl trans pitch srcF s buf a,
   fun opq pinc =>
     c1_tsq_equiv lt opq pinc tbl trans pitch tsrc trest buf a hwf,
   fun transp => c1_left_triangle_equiv lt transp tbl trans pitch srcF s buf a,
   fun transp =>
     c1_right_triangle_equiv lt transp tbl trans pitch srcF s buf a,
   fun opq => c1_left_trapezoid_equiv lt opq tbl trans pitch srcF s buf a,
   fun opq => c1_right_trapezoid_equiv lt opq tbl trans pitch srcF s buf a⟩

/-- Witness for C1 (amended) at a concrete well-formed stream (32 scanlines
that are each a single full-width transparent skip). -/
theorem c1_full_clip_equivalence_witness :
    wfRows 32 (List.replicate 32 224) = some [] ∧
    (renderTransparentSquareClipped .dimLit true (-2) (fun b => b + 1)
        (fun d b => d + b) 1000 (List.replicate 32 224) (fun _ => 7) 0
        (fullTileClip 32 32) =
      renderTransparentSquareFull .dimLit true (-2) (fun b => b + 1)
        (fun d b => d + b) 1000 (List.replicate 32 224) (fun _ => 7) 0) ∧
    renderSquareClipped .dimLit false (fun b => b + 1) (fun d b => d + b)
        1000 (fun k => k) 0 (fun _ => 7) 0 (fullTileClip 32 32) =
      renderSquareFull .dimLit false (fun b => b + 1) (fun d b => d + b) 1000
        (fun k => k) 0 (fun _ => 7) 0 :=
  ⟨by decide,
   ((c1_full_clip_equivalence .dimLit (fun b => b + 1) (fun d b => d + b)
       1000 (fun k => k) 0 (fun _ => 7) 0 (List.replicate 32 224) []
       (by decide)).2.1 true (-2)).1,
   (c1_full_clip_equivalence .dimLit (fun b => b + 1) (fun d b => d + b)
       1000 (fun k => k) 0 (fun _ => 7) 0 (List.replicate 32 224) []
       (by decide)).1 false⟩

set_option maxRecDepth 1000000 in
/-- Counterexample to C1 as stated: (i) for `LeftTrapezoid` with the `Left`
mask (`OpaquePrefix = false`, `PrefixIncrement = 2`) and a full-tile clip,
the clipped routine and the full routine write different values to the
top-left visible pixel (`dst = 0`, `dstPitch = 1000`, so the top row starts
at address `-31000`): the clipped path starts the upper-half prefix at
`InitPrefix(clip.bottom = 0) = -32`, which clamps to an all-opaque row,
while the full path's prefix has already advanced to `30` by the top row.
(ii) For `TransparentSquare`, on a stream whose first scanline's runs sum
to `288 ≠ 32`, the clipped routine aborts (assertion, `none`) while the
full routine completes. -/
theorem c1_full_clip_counterexample :
    renderLeftTrapezoidClipVertical .fullyLit false 2 (fun b => b)
        (fun _ _ => 50) 1000 (fun _ => 0) 0 (fun _ => 7) 0
        (fullTileClip 32 32) (-31000) = 0 ∧
    renderLeftTrapezoidFull .fullyLit false 2 (fun b => b) (fun _ _ => 50)
        1000 (fun _ => 0) 0 (fun _ => 7) 0 (-31000) = 50 ∧
    (renderTransparentSquareClipped .fullyLit false 0 (fun b => b)
        (fun _ _ => 9) 1000
        ((40 :: (List.replicate 40 5 ++ [128, 136])) ++ List.replicate 31 224)
        (fun _ => 7) 0 (fullTileClip 32 32)).isNone = true ∧
    (renderTransparentSquareFull .fullyLit false 0 (fun b => b)
        (fun _ _ => 9) 1000
        ((40 :: (List.replicate 40 5 ++ [128, 136])) ++ List.replicate 31 224)
        (fun _ => 7) 0).isSome = true := by
  refine ⟨by decide, by decide, by decide, by decide⟩
